import Mathlib

/-!
# Verification of the liturgical-calendar core of the parish-website backend

This file gives a shallow embedding of the liturgical calendar engine
(`src/utils/liturgicalCalendar.js`), the saint calendar
(`src/utils/saintCalendar.js`) and the `GET /api/saints/range` route handler
(`src/routes/saints.js`), and proves the frozen claims about them.

Modelling conventions:
* A JavaScript `Date` is its timestamp in milliseconds, embedded as a `Nat`
  (all dates handled by the code live far after the epoch of the embedding,
  which is placed at 0000-03-01 of the proleptic Gregorian calendar so that
  all arithmetic stays in `Nat`).  The code never applies timezone
  conversions, so local time = the embedded clock.
* `new Date(y, m, d)` (with in-range arguments, the only way the source uses
  it) is `mkDate`, producing the midnight timestamp of the civil date.
* `d.setDate(d.getDate() ± k)` on a date is adding/subtracting `k` whole days
  to the timestamp, which is exactly what the JavaScript operation does for
  the in-range civil dates the source manipulates (no DST in play).
* Field accessors `getFullYear`/`getMonth`/`getDate`/`getDay` convert the
  timestamp's day number to civil fields with the standard Gregorian
  era-based conversion (`civilFromDays`), `getMonth` being 0-indexed as in
  JavaScript.
* The injected collaborators (`setOverrideModel`, `setSaintCalendarFunction`)
  become explicit `Option`-valued function parameters; an `async` call that
  can reject is a function into `Except Unit`.
-/

namespace Parish

/-- Milliseconds per civil day, the constant `86400000` used implicitly by
JavaScript date arithmetic. -/
def msPerDay : Nat := 86400000

/-- Day number of the civil date `(y, m, d)` (month `m` is 1-indexed), counted
from 0000-03-01, by the standard Gregorian era decomposition.  This is the
embedding of the timestamp `new Date(y, m-1, d)` divided by `msPerDay`. -/
def daysFromCivil (y m d : Nat) : Nat :=
  let yAdj := if m ≤ 2 then y - 1 else y
  let era := yAdj / 400
  let yoe := yAdj % 400
  let mp := if m > 2 then m - 3 else m + 9
  let doy := (153 * mp + 2) / 5 + (d - 1)
  let doe := yoe * 365 + yoe / 4 - yoe / 100 + doy
  era * 146097 + doe

/-- Inverse of `daysFromCivil`: civil fields `(year, month, day)` (month
1-indexed) of a day number. -/
def civilFromDays (z : Nat) : Nat × Nat × Nat :=
  let era := z / 146097
  let doe := z % 146097
  let yoe := (doe - doe / 1460 + doe / 36524 - doe / 146096) / 365
  let y := yoe + era * 400
  let doy := doe - (365 * yoe + yoe / 4 - yoe / 100)
  let mp := (5 * doy + 2) / 153
  let d := doy - (153 * mp + 2) / 5 + 1
  let m := if mp < 10 then mp + 3 else mp - 9
  (if m ≤ 2 then y + 1 else y, m, d)

/-- `Date.prototype.getFullYear` of a timestamp. -/
def getFullYear (t : Nat) : Nat := (civilFromDays (t / msPerDay)).1

/-- `Date.prototype.getMonth` of a timestamp (0-indexed month, as in JS). -/
def getMonth (t : Nat) : Nat := (civilFromDays (t / msPerDay)).2.1 - 1

/-- `Date.prototype.getDate` of a timestamp (day of month). -/
def getDate (t : Nat) : Nat := (civilFromDays (t / msPerDay)).2.2

/-- `Date.prototype.getDay` of a timestamp (0 = Sunday).  Day 0 of the
embedding (0000-03-01 Gregorian) was a Wednesday, hence the offset 3. -/
def getDay (t : Nat) : Nat := (t / msPerDay + 3) % 7

/-- `new Date(y, m, d)` with 0-indexed month `m`, as used by the source with
in-range arguments: the midnight timestamp of the civil date. -/
def mkDate (y m d : Nat) : Nat := daysFromCivil y (m + 1) d * msPerDay

/-- The `new Date(t.getFullYear(), t.getMonth(), t.getDate())` idiom the
source uses to strip the time-of-day from a timestamp. -/
def stripTime (t : Nat) : Nat := mkDate (getFullYear t) (getMonth t) (getDate t)

/-- The `d.setHours(0, 0, 0, 0)` normalization: midnight of the same day. -/
def setMidnight (t : Nat) : Nat := t / msPerDay * msPerDay

/-- `calculateEaster` (src/utils/liturgicalCalendar.js:554-571): the anonymous
Gregorian Computus.  All JavaScript intermediates are non-negative integers
(`Math.floor` on non-negative quotients), so `Nat` arithmetic coincides: in
each left-associated subtraction chain the minuend provably dominates
(`19*a + b ≥ d + g`, `32 + 2*e + 2*i ≥ h + k`, `h + l + 114 ≥ 7*m`). -/
def calculateEaster (year : Nat) : Nat :=
  let a := year % 19
  let b := year / 100
  let c := year % 100
  let d := b / 4
  let e := b % 4
  let f := (b + 8) / 25
  let g := (b - f + 1) / 3
  let h := (19 * a + b - d - g + 15) % 30
  let i := c / 4
  let k := c % 4
  let l := (32 + 2 * e + 2 * i - h - k) % 7
  let m := (a + 11 * h + 22 * l) / 451
  let month := (h + l - 7 * m + 114) / 31
  let day := (h + l - 7 * m + 114) % 31 + 1
  mkDate year (month - 1) day

/-- `getAdventSunday` (src/utils/liturgicalCalendar.js:579-596): the
`sundayNumber`-th Sunday of Advent, computed backward from December 25. -/
def getAdventSunday (year sundayNumber : Nat) : Nat :=
  let christmas := mkDate year 11 25
  let dayOfWeek := getDay christmas
  let daysBefore := if dayOfWeek == 0 then 7 else dayOfWeek
  let fourthSunday := christmas - daysBefore * msPerDay
  fourthSunday - (4 - sundayNumber) * 7 * msPerDay

/-- `isAdvent` (src/utils/liturgicalCalendar.js:603-609). -/
def isAdvent (date : Nat) : Bool :=
  let year := getFullYear date
  let firstSunday := getAdventSunday year 1
  let christmas := mkDate year 11 25
  decide (firstSunday ≤ date) && decide (date < christmas)

/-- The shared tail of `isChristmasSeason`: compute the Baptism of the Lord
from Epiphany and test `christmas <= date <= baptism`. -/
def christmasSeasonCheck (christmas epiphany date : Nat) : Bool :=
  let epiphanyDayOfWeek := getDay epiphany
  let baptism :=
    if epiphanyDayOfWeek == 0 then epiphany + 7 * msPerDay
    else epiphany + (7 - epiphanyDayOfWeek) * msPerDay
  decide (christmas ≤ date) && decide (date ≤ baptism)

/-- `isChristmasSeason` (src/utils/liturgicalCalendar.js:616-646). -/
def isChristmasSeason (date : Nat) : Bool :=
  let year := getFullYear date
  let month := getMonth date
  if month == 11 then
    christmasSeasonCheck (mkDate year 11 25) (mkDate (year + 1) 0 6) date
  else if month == 0 then
    christmasSeasonCheck (mkDate (year - 1) 11 25) (mkDate year 0 6) date
  else false

/-- `isLent` (src/utils/liturgicalCalendar.js:654-662). -/
def isLent (date easter : Nat) : Bool :=
  let ashWednesday := easter - 46 * msPerDay
  let holyThursday := easter - 3 * msPerDay
  decide (ashWednesday ≤ date) && decide (date < holyThursday)

/-- `isPalmSunday` (src/utils/liturgicalCalendar.js:670-675). -/
def isPalmSunday (date easter : Nat) : Bool :=
  let palmSunday := easter - 7 * msPerDay
  date == stripTime palmSunday

/-- `isGoodFriday` (src/utils/liturgicalCalendar.js:683-688). -/
def isGoodFriday (date easter : Nat) : Bool :=
  let goodFriday := easter - 2 * msPerDay
  date == stripTime goodFriday

/-- `isEasterSeason` (src/utils/liturgicalCalendar.js:696-701). -/
def isEasterSeason (date easter : Nat) : Bool :=
  let pentecost := easter + 49 * msPerDay
  decide (easter ≤ date) && decide (date ≤ pentecost)

/-- `isPentecost` (src/utils/liturgicalCalendar.js:709-714). -/
def isPentecost (date easter : Nat) : Bool :=
  let pentecost := easter + 49 * msPerDay
  date == stripTime pentecost

/-- `isGaudeteSunday` (src/utils/liturgicalCalendar.js:721-728). -/
def isGaudeteSunday (date : Nat) : Bool :=
  if !isAdvent date then false
  else
    let year := getFullYear date
    let thirdSunday := getAdventSunday year 3
    date == stripTime thirdSunday

/-- The `while (currentDate < easter)` loop of `isLaetareSunday`
(src/utils/liturgicalCalendar.js:743-755), scanning day by day for the fourth
Sunday of Lent; the early `return` inside the loop becomes the comparison
result.  `fuel` is a structural bound on the number of iterations: the loop
starts at `easter - 46 * msPerDay` and advances one whole day per iteration,
so it performs at most 46 iterations before `current < easter` fails, and
with `fuel = 46` the guard `current < easter` fails whenever the fuel does
(`current` has then reached at least `easter`), making the encoding exact. -/
def laetareLoop (date easter : Nat) : Nat → Nat → Nat → Bool
  | _, _, 0 => false
  | current, sundayCount, fuel + 1 =>
    if current < easter then
      if getDay current == 0 then
        if sundayCount + 1 == 4 then date == stripTime current
        else laetareLoop date easter (current + msPerDay) (sundayCount + 1) fuel
      else laetareLoop date easter (current + msPerDay) sundayCount fuel
    else false

/-- `isLaetareSunday` (src/utils/liturgicalCalendar.js:736-757). -/
def isLaetareSunday (date easter : Nat) : Bool :=
  if !isLent date easter then false
  else
    let ashWednesday := easter - 46 * msPerDay
    laetareLoop date easter ashWednesday 0 46

/-- The six liturgical color values (the `name` identities of the entries of
the `LITURGICAL_COLORS` object; their hex and shade-ramp payloads are static
UI configuration not touched by any claim). -/
inductive LiturgicalColor where
  | white
  | red
  | green
  | purple
  | rose
  | gold
deriving DecidableEq

/-- Key lookup in the `LITURGICAL_COLORS` object
(src/utils/liturgicalCalendar.js:450-547): defined keys are the six
upper-case color names; any other key yields `undefined` (`none`). -/
def LITURGICAL_COLORS (key : String) : Option LiturgicalColor :=
  if key == "WHITE" then some .white
  else if key == "RED" then some .red
  else if key == "GREEN" then some .green
  else if key == "PURPLE" then some .purple
  else if key == "ROSE" then some .rose
  else if key == "GOLD" then some .gold
  else none

/-- A `{ name, type, description }` record of the saint calendar. -/
structure SaintEntry where
  name : String
  type : String
  description : String
deriving DecidableEq

/-- A persisted `LiturgicalColorOverride` document as the classifier reads it
(only its `color` field is consulted). -/
structure OverrideDoc where
  color : String
deriving DecidableEq

/-- JavaScript `String.prototype.toUpperCase` for the strings the code feeds
it (ASCII color names): uppercase every character. -/
def jsToUpperCase (s : String) : String := String.mk (s.data.map Char.toUpper)

/-- `needle` occurs as a contiguous run inside `hay`
(helper for `String.prototype.includes`). -/
def containsSub (needle : List Char) : List Char → Bool
  | [] => needle.isEmpty
  | c :: t => needle.isPrefixOf (c :: t) || containsSub needle t

/-- `s.includes(pat)` of JavaScript. -/
def strIncludes (s pat : String) : Bool := containsSub pat.data s.data

/-- The saint-calendar-driven feast override block of `getLiturgicalColor`
(src/utils/liturgicalCalendar.js:814-882): when a saint-calendar accessor is
wired in, a `feast`-typed first entry whose name matches one of the
recognized high-precedence categories forces white; a throwing accessor is
caught and treated as no match (`// Fall through to hardcoded checks`); with
no accessor the block is skipped. -/
def saintFeastOverride
    (saintCalendarFn : Option (Nat → Except Unit (List SaintEntry)))
    (date : Nat) : Option LiturgicalColor :=
  match saintCalendarFn with
  | none => none
  | some getSaints =>
    match getSaints date with
    | .error _ => none
    | .ok saints =>
      match saints with
      | [] => none
      | feast :: _ =>
        -- Feasts of the Lord always override season colors (white)
        if feast.type == "feast" &&
            (strIncludes feast.name "Lord" ||
             strIncludes feast.name "Presentation" ||
             strIncludes feast.name "Transfiguration" ||
             strIncludes feast.name "Annunciation" ||
             strIncludes feast.name "Visitation" ||
             strIncludes feast.name "Exaltation" ||
             strIncludes feast.name "Dedication") then some .white
        -- Major Marian feasts override season colors (white)
        else if feast.type == "feast" &&
            (strIncludes feast.name "Mary" ||
             strIncludes feast.name "Mother of God" ||
             strIncludes feast.name "Immaculate Conception" ||
             strIncludes feast.name "Assumption" ||
             strIncludes feast.name "Guadalupe" ||
             strIncludes feast.name "Nativity of the Blessed Virgin") then some .white
        -- Major Apostle feasts override season colors (white); the
        -- `feast.description &&` truthiness guard is non-emptiness
        else if feast.type == "feast" &&
            (strIncludes feast.name "Peter and Paul" ||
             strIncludes feast.name "Chair of Saint Peter" ||
             strIncludes feast.name "Conversion of Saint Paul" ||
             strIncludes feast.name "Saints Philip and James" ||
             strIncludes feast.name "Saints Simon and Jude" ||
             strIncludes feast.name "Saint Andrew" ||
             (strIncludes feast.name "Saint Thomas" && feast.description != "" &&
               strIncludes feast.description "Apostle") ||
             (strIncludes feast.name "Saint James" && feast.description != "" &&
               strIncludes feast.description "Apostle") ||
             strIncludes feast.name "Saint Bartholomew" ||
             (strIncludes feast.name "Saint Matthew" && feast.description != "" &&
               strIncludes feast.description "Apostle") ||
             strIncludes feast.name "Saint Mark" ||
             strIncludes feast.name "Saint Luke" ||
             (strIncludes feast.name "Saint John" && feast.description != "" &&
               (strIncludes feast.description "Apostle" ||
                strIncludes feast.description "Evangelist")) ||
             strIncludes feast.name "Saint Matthias") then some .white
        -- Other major feasts that override season colors
        else if feast.type == "feast" &&
            (strIncludes feast.name "All Saints" ||
             strIncludes feast.name "Nativity of Saint John the Baptist" ||
             strIncludes feast.name "Saints Michael, Gabriel, and Raphael" ||
             strIncludes feast.name "Saint Lawrence" ||
             strIncludes feast.name "Saint Mary Magdalene") then some .white
        else none

/-- `getLiturgicalColor` (src/utils/liturgicalCalendar.js:765-1094).

The module-level injected collaborators become explicit parameters:
`overrideModel` is the `LiturgicalColorOverride.findOne({ date })` accessor
installed by `setOverrideModel` (`none` when never installed), and
`saintCalendarFn` is the accessor installed by `setSaintCalendarFunction`.
Both are `Except`-valued: `.error` is a thrown/rejected lookup.  The unused
source local `easterNextYear` is omitted. -/
def getLiturgicalColor
    (overrideModel : Option (Nat → Except Unit (Option OverrideDoc)))
    (saintCalendarFn : Option (Nat → Except Unit (List SaintEntry)))
    (date : Nat) (override : Option OverrideDoc) : LiturgicalColor :=
  -- lines 766-772: explicit override argument, if its color is recognized
  let manual : Option LiturgicalColor :=
    match override with
    | some o => LITURGICAL_COLORS (jsToUpperCase o.color)
    | none => none
  match manual with
  | some overrideColor => overrideColor
  | none =>
  -- lines 774-790: persisted override for the date with time-of-day zeroed
  -- (`dateOnly.setHours(0, 0, 0, 0)`); a failed lookup is caught and falls
  -- through to the calculated color, as does an unrecognized stored color
  let db : Option LiturgicalColor :=
    match overrideModel with
    | some findOne =>
      let dateOnly := setMidnight date
      match findOne dateOnly with
      | .ok (some overrideDoc) => LITURGICAL_COLORS (jsToUpperCase overrideDoc.color)
      | .ok none => none
      | .error _ => none
    | none => none
  match db with
  | some overrideColor => overrideColor
  | none =>
  let year := getFullYear date
  let easter := calculateEaster year
  let month := getMonth date
  let day := getDate date
  -- lines 797-808: special days
  if isPalmSunday date easter || isGoodFriday date easter || isPentecost date easter then
    .red
  else if isGaudeteSunday date then .rose
  else if isLaetareSunday date easter then .rose
  else
    -- lines 810-882: saint-calendar-driven feast override
    match saintFeastOverride saintCalendarFn date with
    | some c => c
    | none =>
    -- lines 884-1049: hardcoded fixed-date solemnities and feasts (fallback
    -- if the saint calendar is not available); Nov 2 is commented out in the
    -- source and hence absent here
    if month == 11 && day == 8 then .white        -- Immaculate Conception
    else if month == 11 && day == 12 then .white  -- Our Lady of Guadalupe
    else if month == 2 && day == 19 then .white   -- Saint Joseph
    else if month == 2 && day == 25 then .white   -- Annunciation
    else if month == 1 && day == 2 then .white    -- Presentation of the Lord
    else if month == 0 && day == 6 then .white    -- Epiphany
    else if month == 0 && day == 1 then .white    -- Mary, Mother of God
    else if month == 7 && day == 6 then .white    -- Transfiguration
    else if month == 7 && day == 15 then .white   -- Assumption
    else if month == 8 && day == 8 then .white    -- Nativity of the BVM
    else if month == 8 && day == 14 then .white   -- Exaltation of the Cross
    else if month == 10 && day == 1 then .white   -- All Saints
    else if month == 10 && day == 9 then .white   -- Lateran Basilica
    else if month == 5 && day == 29 then .white   -- Saints Peter and Paul
    else if month == 5 && day == 24 then .white   -- Nativity of St John Baptist
    else if month == 1 && day == 22 then .white   -- Chair of Saint Peter
    else if month == 0 && day == 25 then .white   -- Conversion of Saint Paul
    else if month == 4 && day == 31 then .white   -- Visitation
    else if month == 4 && day == 3 then .white    -- Saints Philip and James
    else if month == 4 && day == 14 then .white   -- Saint Matthias
    else if month == 6 && day == 3 then .white    -- Saint Thomas
    else if month == 6 && day == 25 then .white   -- Saint James
    else if month == 6 && day == 22 then .white   -- Saint Mary Magdalene
    else if month == 7 && day == 24 then .white   -- Saint Bartholomew
    else if month == 8 && day == 21 then .white   -- Saint Matthew
    else if month == 8 && day == 29 then .white   -- Archangels
    else if month == 9 && day == 18 then .white   -- Saint Luke
    else if month == 9 && day == 28 then .white   -- Saints Simon and Jude
    else if month == 10 && day == 30 then .white  -- Saint Andrew
    else if month == 3 && day == 25 then .white   -- Saint Mark
    else if month == 7 && day == 10 then .white   -- Saint Lawrence
    else if month == 11 && (day == 26 || day == 27 || day == 28) then .white
    -- lines 1051-1066: seasons
    else if isEasterSeason date easter then .white
    else if isChristmasSeason date then .white
    else if isLent date easter then .purple
    else if isAdvent date then .purple
    else
      -- lines 1068-1093: Ordinary Time window check, then the default,
      -- both green
      let epiphany := mkDate year 0 6
      let epiphanyDayOfWeek := getDay epiphany
      let baptism :=
        if epiphanyDayOfWeek == 0 then epiphany + 7 * msPerDay
        else epiphany + (7 - epiphanyDayOfWeek) * msPerDay
      let ashWednesday := easter - 46 * msPerDay
      let pentecost := easter + 49 * msPerDay
      let firstSundayAdvent := getAdventSunday year 1
      if (decide (baptism < date) && decide (date < ashWednesday)) ||
          (decide (pentecost < date) && decide (date < firstSundayAdvent)) then
        .green
      else .green

/-- The static saint table `SAINT_CALENDAR` (src/utils/saintCalendar.js:25-247),
keyed by 1-indexed `(month, day)`; a key absent from the object yields `[]`
(the optional-chained `[month]?.[day] || []` access). -/
def SAINT_CALENDAR : Nat → Nat → List SaintEntry
  | 1, 1 => [⟨"Mary, Mother of God", "feast", "Solemnity of Mary, the Holy Mother of God"⟩]
  | 1, 2 => [⟨"Saints Basil the Great and Gregory Nazianzen", "memorial", "Bishops and Doctors of the Church"⟩]
  | 1, 3 => [⟨"The Most Holy Name of Jesus", "optional", "Optional Memorial"⟩]
  | 1, 6 => [⟨"Epiphany of the Lord", "feast", "The manifestation of Christ to the Magi"⟩]
  | 1, 7 => [⟨"Saint Raymond of Penyafort", "optional", "Priest"⟩]
  | 1, 13 => [⟨"Saint Hilary", "optional", "Bishop and Doctor of the Church"⟩]
  | 1, 17 => [⟨"Saint Anthony", "memorial", "Abbot"⟩]
  | 1, 20 => [⟨"Saint Fabian", "optional", "Pope and Martyr"⟩]
  | 1, 21 => [⟨"Saint Agnes", "memorial", "Virgin and Martyr"⟩]
  | 1, 22 => [⟨"Saint Vincent", "optional", "Deacon and Martyr"⟩]
  | 1, 24 => [⟨"Saint Francis de Sales", "memorial", "Bishop and Doctor of the Church"⟩]
  | 1, 25 => [⟨"The Conversion of Saint Paul the Apostle", "feast", "Apostle"⟩]
  | 1, 26 => [⟨"Saints Timothy and Titus", "memorial", "Bishops"⟩]
  | 1, 27 => [⟨"Saint Angela Merici", "optional", "Virgin"⟩]
  | 1, 28 => [⟨"Saint Thomas Aquinas", "memorial", "Priest and Doctor of the Church"⟩]
  | 1, 31 => [⟨"Saint John Bosco", "memorial", "Priest"⟩]
  | 2, 2 => [⟨"The Presentation of the Lord", "feast", "Candlemas"⟩]
  | 2, 3 => [⟨"Saint Blaise", "optional", "Bishop and Martyr"⟩]
  | 2, 5 => [⟨"Saint Agatha", "memorial", "Virgin and Martyr"⟩]
  | 2, 6 => [⟨"Saint Paul Miki and Companions", "memorial", "Martyrs"⟩]
  | 2, 8 => [⟨"Saint Jerome Emiliani", "optional", "Priest"⟩]
  | 2, 10 => [⟨"Saint Scholastica", "memorial", "Virgin"⟩]
  | 2, 11 => [⟨"Our Lady of Lourdes", "optional", "Optional Memorial"⟩]
  | 2, 14 => [⟨"Saints Cyril and Methodius", "memorial", "Bishops"⟩]
  | 2, 17 => [⟨"The Seven Founders of the Servite Order", "optional", "Religious"⟩]
  | 2, 21 => [⟨"Saint Peter Damian", "optional", "Bishop and Doctor of the Church"⟩]
  | 2, 22 => [⟨"The Chair of Saint Peter the Apostle", "feast", "Apostle"⟩]
  | 2, 23 => [⟨"Saint Polycarp", "memorial", "Bishop and Martyr"⟩]
  | 3, 4 => [⟨"Saint Casimir", "optional", "Confessor"⟩]
  | 3, 7 => [⟨"Saints Perpetua and Felicity", "memorial", "Martyrs"⟩]
  | 3, 8 => [⟨"Saint John of God", "optional", "Religious"⟩]
  | 3, 9 => [⟨"Saint Frances of Rome", "optional", "Religious"⟩]
  | 3, 17 => [⟨"Saint Patrick", "memorial", "Bishop"⟩]
  | 3, 18 => [⟨"Saint Cyril of Jerusalem", "optional", "Bishop and Doctor of the Church"⟩]
  | 3, 19 => [⟨"Saint Joseph, Spouse of the Blessed Virgin Mary", "feast", "Patron of the Universal Church"⟩]
  | 3, 23 => [⟨"Saint Turibius of Mogrovejo", "optional", "Bishop"⟩]
  | 3, 25 => [⟨"The Annunciation of the Lord", "feast", "The Angel Gabriel announces to Mary"⟩]
  | 4, 2 => [⟨"Saint Francis of Paola", "optional", "Hermit"⟩]
  | 4, 4 => [⟨"Saint Isidore", "optional", "Bishop and Doctor of the Church"⟩]
  | 4, 5 => [⟨"Saint Vincent Ferrer", "optional", "Priest"⟩]
  | 4, 7 => [⟨"Saint John Baptist de la Salle", "memorial", "Priest"⟩]
  | 4, 11 => [⟨"Saint Stanislaus", "memorial", "Bishop and Martyr"⟩]
  | 4, 13 => [⟨"Saint Martin I", "optional", "Pope and Martyr"⟩]
  | 4, 21 => [⟨"Saint Anselm", "optional", "Bishop and Doctor of the Church"⟩]
  | 4, 23 => [⟨"Saint George", "optional", "Martyr"⟩]
  | 4, 24 => [⟨"Saint Fidelis of Sigmaringen", "optional", "Priest and Martyr"⟩]
  | 4, 25 => [⟨"Saint Mark", "feast", "Evangelist"⟩]
  | 4, 28 => [⟨"Saint Peter Chanel", "optional", "Priest and Martyr"⟩]
  | 4, 29 => [⟨"Saint Catherine of Siena", "memorial", "Virgin and Doctor of the Church"⟩]
  | 4, 30 => [⟨"Saint Pius V", "optional", "Pope"⟩]
  | 5, 1 => [⟨"Saint Joseph the Worker", "optional", "Patron of Workers"⟩]
  | 5, 2 => [⟨"Saint Athanasius", "memorial", "Bishop and Doctor of the Church"⟩]
  | 5, 3 => [⟨"Saints Philip and James", "feast", "Apostles"⟩]
  | 5, 10 => [⟨"Saint John of Avila", "optional", "Priest and Doctor of the Church"⟩]
  | 5, 12 => [⟨"Saints Nereus and Achilleus", "optional", "Martyrs"⟩]
  | 5, 13 => [⟨"Our Lady of Fatima", "optional", "Optional Memorial"⟩]
  | 5, 14 => [⟨"Saint Matthias", "feast", "Apostle"⟩]
  | 5, 18 => [⟨"Saint John I", "optional", "Pope and Martyr"⟩]
  | 5, 20 => [⟨"Saint Bernardine of Siena", "optional", "Priest"⟩]
  | 5, 21 => [⟨"Saint Christopher Magallanes and Companions", "optional", "Martyrs"⟩]
  | 5, 22 => [⟨"Saint Rita of Cascia", "optional", "Religious"⟩]
  | 5, 25 => [⟨"Saint Bede the Venerable", "optional", "Priest and Doctor of the Church"⟩]
  | 5, 26 => [⟨"Saint Philip Neri", "memorial", "Priest"⟩]
  | 5, 27 => [⟨"Saint Augustine of Canterbury", "optional", "Bishop"⟩]
  | 5, 31 => [⟨"The Visitation of the Blessed Virgin Mary", "feast", "Mary visits Elizabeth"⟩]
  | 6, 1 => [⟨"Saint Justin", "memorial", "Martyr"⟩]
  | 6, 2 => [⟨"Saints Marcellinus and Peter", "optional", "Martyrs"⟩]
  | 6, 3 => [⟨"Saints Charles Lwanga and Companions", "memorial", "Martyrs"⟩]
  | 6, 5 => [⟨"Saint Boniface", "memorial", "Bishop and Martyr"⟩]
  | 6, 6 => [⟨"Saint Norbert", "optional", "Bishop"⟩]
  | 6, 9 => [⟨"Saint Ephrem", "optional", "Deacon and Doctor of the Church"⟩]
  | 6, 11 => [⟨"Saint Barnabas", "memorial", "Apostle"⟩]
  | 6, 13 => [⟨"Saint Anthony of Padua", "memorial", "Priest and Doctor of the Church"⟩]
  | 6, 19 => [⟨"Saint Romuald", "optional", "Abbot"⟩]
  | 6, 21 => [⟨"Saint Aloysius Gonzaga", "memorial", "Religious"⟩]
  | 6, 22 => [⟨"Saints John Fisher and Thomas More", "optional", "Martyrs"⟩]
  | 6, 24 => [⟨"The Nativity of Saint John the Baptist", "feast", "Forerunner of Christ"⟩]
  | 6, 27 => [⟨"Saint Cyril of Alexandria", "optional", "Bishop and Doctor of the Church"⟩]
  | 6, 28 => [⟨"Saint Irenaeus", "memorial", "Bishop and Martyr"⟩]
  | 6, 29 => [⟨"Saints Peter and Paul", "feast", "Apostles"⟩]
  | 6, 30 => [⟨"The First Martyrs of the Church of Rome", "optional", "Martyrs"⟩]
  | 7, 3 => [⟨"Saint Thomas", "feast", "Apostle"⟩]
  | 7, 4 => [⟨"Saint Elizabeth of Portugal", "optional", "Queen"⟩]
  | 7, 5 => [⟨"Saint Anthony Zaccaria", "optional", "Priest"⟩]
  | 7, 6 => [⟨"Saint Maria Goretti", "optional", "Virgin and Martyr"⟩]
  | 7, 11 => [⟨"Saint Benedict", "memorial", "Abbot, Patron of Europe"⟩]
  | 7, 13 => [⟨"Saint Henry", "optional", "Emperor"⟩]
  | 7, 14 => [⟨"Saint Kateri Tekakwitha", "optional", "Virgin"⟩]
  | 7, 15 => [⟨"Saint Bonaventure", "memorial", "Bishop and Doctor of the Church"⟩]
  | 7, 16 => [⟨"Our Lady of Mount Carmel", "optional", "Optional Memorial"⟩]
  | 7, 20 => [⟨"Saint Apollinaris", "optional", "Bishop and Martyr"⟩]
  | 7, 21 => [⟨"Saint Lawrence of Brindisi", "optional", "Priest and Doctor of the Church"⟩]
  | 7, 22 => [⟨"Saint Mary Magdalene", "feast", "Apostle to the Apostles"⟩]
  | 7, 23 => [⟨"Saint Bridget", "optional", "Religious"⟩]
  | 7, 24 => [⟨"Saint Sharbel Makhluf", "optional", "Priest"⟩]
  | 7, 25 => [⟨"Saint James", "feast", "Apostle"⟩]
  | 7, 26 => [⟨"Saints Joachim and Anne", "memorial", "Parents of the Blessed Virgin Mary"⟩]
  | 7, 29 => [⟨"Saints Martha, Mary, and Lazarus", "memorial", "Friends of Jesus"⟩]
  | 7, 30 => [⟨"Saint Peter Chrysologus", "optional", "Bishop and Doctor of the Church"⟩]
  | 7, 31 => [⟨"Saint Ignatius of Loyola", "memorial", "Priest"⟩]
  | 8, 1 => [⟨"Saint Alphonsus Liguori", "memorial", "Bishop and Doctor of the Church"⟩]
  | 8, 2 => [⟨"Saint Eusebius of Vercelli", "optional", "Bishop"⟩]
  | 8, 4 => [⟨"Saint John Vianney", "memorial", "Priest, Patron of Parish Priests"⟩]
  | 8, 5 => [⟨"The Dedication of the Basilica of Saint Mary Major", "optional", "Optional Memorial"⟩]
  | 8, 6 => [⟨"The Transfiguration of the Lord", "feast", "Jesus is transfigured on Mount Tabor"⟩]
  | 8, 7 => [⟨"Saint Sixtus II", "optional", "Pope and Martyr"⟩]
  | 8, 8 => [⟨"Saint Dominic", "memorial", "Priest"⟩]
  | 8, 9 => [⟨"Saint Teresa Benedicta of the Cross", "optional", "Virgin and Martyr"⟩]
  | 8, 10 => [⟨"Saint Lawrence", "feast", "Deacon and Martyr"⟩]
  | 8, 11 => [⟨"Saint Clare", "memorial", "Virgin"⟩]
  | 8, 13 => [⟨"Saints Pontian and Hippolytus", "optional", "Martyrs"⟩]
  | 8, 14 => [⟨"Saint Maximilian Kolbe", "memorial", "Priest and Martyr"⟩]
  | 8, 15 => [⟨"The Assumption of the Blessed Virgin Mary", "feast", "Mary is taken body and soul into heaven"⟩]
  | 8, 16 => [⟨"Saint Stephen of Hungary", "optional", "King"⟩]
  | 8, 19 => [⟨"Saint John Eudes", "optional", "Priest"⟩]
  | 8, 20 => [⟨"Saint Bernard", "memorial", "Abbot and Doctor of the Church"⟩]
  | 8, 21 => [⟨"Saint Pius X", "memorial", "Pope"⟩]
  | 8, 22 => [⟨"The Queenship of the Blessed Virgin Mary", "memorial", "Optional Memorial"⟩]
  | 8, 23 => [⟨"Saint Rose of Lima", "optional", "Virgin"⟩]
  | 8, 24 => [⟨"Saint Bartholomew", "feast", "Apostle"⟩]
  | 8, 25 => [⟨"Saint Louis", "optional", "King"⟩]
  | 8, 27 => [⟨"Saint Monica", "memorial", "Mother of Saint Augustine"⟩]
  | 8, 28 => [⟨"Saint Augustine", "memorial", "Bishop and Doctor of the Church"⟩]
  | 8, 29 => [⟨"The Passion of Saint John the Baptist", "memorial", "Martyr"⟩]
  | 9, 3 => [⟨"Saint Gregory the Great", "memorial", "Pope and Doctor of the Church"⟩]
  | 9, 8 => [⟨"The Nativity of the Blessed Virgin Mary", "feast", "Birth of Mary"⟩]
  | 9, 9 => [⟨"Saint Peter Claver", "optional", "Priest"⟩]
  | 9, 12 => [⟨"The Most Holy Name of Mary", "optional", "Optional Memorial"⟩]
  | 9, 13 => [⟨"Saint John Chrysostom", "memorial", "Bishop and Doctor of the Church"⟩]
  | 9, 14 => [⟨"The Exaltation of the Holy Cross", "feast", "Triumph of the Cross"⟩]
  | 9, 15 => [⟨"Our Lady of Sorrows", "memorial", "Optional Memorial"⟩]
  | 9, 16 => [⟨"Saints Cornelius and Cyprian", "optional", "Martyrs"⟩]
  | 9, 17 => [⟨"Saint Robert Bellarmine", "optional", "Bishop and Doctor of the Church"⟩]
  | 9, 19 => [⟨"Saint Januarius", "optional", "Bishop and Martyr"⟩]
  | 9, 20 => [⟨"Saints Andrew Kim Taegon, Paul Chong Hasang, and Companions", "memorial", "Martyrs"⟩]
  | 9, 21 => [⟨"Saint Matthew", "feast", "Apostle and Evangelist"⟩]
  | 9, 23 => [⟨"Saint Pius of Pietrelcina", "memorial", "Priest"⟩]
  | 9, 26 => [⟨"Saints Cosmas and Damian", "optional", "Martyrs"⟩]
  | 9, 27 => [⟨"Saint Vincent de Paul", "memorial", "Priest"⟩]
  | 9, 28 => [⟨"Saint Wenceslaus", "optional", "Martyr"⟩]
  | 9, 29 => [⟨"Saints Michael, Gabriel, and Raphael", "feast", "Archangels"⟩]
  | 9, 30 => [⟨"Saint Jerome", "memorial", "Priest and Doctor of the Church"⟩]
  | 10, 1 => [⟨"Saint Thérèse of the Child Jesus", "memorial", "Virgin and Doctor of the Church"⟩]
  | 10, 2 => [⟨"The Holy Guardian Angels", "memorial", "Optional Memorial"⟩]
  | 10, 4 => [⟨"Saint Francis of Assisi", "memorial", "Founder of the Franciscans"⟩]
  | 10, 5 => [⟨"Saint Faustina Kowalska", "optional", "Virgin"⟩]
  | 10, 6 => [⟨"Saint Bruno", "optional", "Priest"⟩]
  | 10, 7 => [⟨"Our Lady of the Rosary", "memorial", "Optional Memorial"⟩]
  | 10, 9 => [⟨"Saint Denis and Companions", "optional", "Martyrs"⟩]
  | 10, 11 => [⟨"Saint John XXIII", "optional", "Pope"⟩]
  | 10, 14 => [⟨"Saint Callistus I", "optional", "Pope and Martyr"⟩]
  | 10, 15 => [⟨"Saint Teresa of Jesus", "memorial", "Virgin and Doctor of the Church"⟩]
  | 10, 16 => [⟨"Saint Hedwig", "optional", "Religious"⟩]
  | 10, 17 => [⟨"Saint Ignatius of Antioch", "memorial", "Bishop and Martyr"⟩]
  | 10, 18 => [⟨"Saint Luke", "feast", "Evangelist"⟩]
  | 10, 19 => [⟨"Saints John de Brébeuf and Isaac Jogues", "optional", "Priests and Martyrs"⟩]
  | 10, 22 => [⟨"Saint John Paul II", "optional", "Pope"⟩]
  | 10, 23 => [⟨"Saint John of Capistrano", "optional", "Priest"⟩]
  | 10, 24 => [⟨"Saint Anthony Mary Claret", "optional", "Bishop"⟩]
  | 10, 28 => [⟨"Saints Simon and Jude", "feast", "Apostles"⟩]
  | 11, 1 => [⟨"All Saints", "feast", "Solemnity of All Saints"⟩]
  | 11, 2 => [⟨"All Souls", "feast", "The Commemoration of All the Faithful Departed"⟩]
  | 11, 3 => [⟨"Saint Martin de Porres", "optional", "Religious"⟩]
  | 11, 4 => [⟨"Saint Charles Borromeo", "memorial", "Bishop"⟩]
  | 11, 9 => [⟨"The Dedication of the Lateran Basilica", "feast", "Mother and Head of all Churches"⟩]
  | 11, 10 => [⟨"Saint Leo the Great", "memorial", "Pope and Doctor of the Church"⟩]
  | 11, 11 => [⟨"Saint Martin of Tours", "memorial", "Bishop"⟩]
  | 11, 12 => [⟨"Saint Josaphat", "memorial", "Bishop and Martyr"⟩]
  | 11, 13 => [⟨"Saint Frances Xavier Cabrini", "optional", "Virgin"⟩]
  | 11, 15 => [⟨"Saint Albert the Great", "optional", "Bishop and Doctor of the Church"⟩]
  | 11, 16 => [⟨"Saint Margaret of Scotland", "optional", "Queen"⟩]
  | 11, 17 => [⟨"Saint Elizabeth of Hungary", "memorial", "Religious"⟩]
  | 11, 18 => [⟨"The Dedication of the Basilicas of Saints Peter and Paul", "optional", "Optional Memorial"⟩]
  | 11, 21 => [⟨"The Presentation of the Blessed Virgin Mary", "memorial", "Optional Memorial"⟩]
  | 11, 22 => [⟨"Saint Cecilia", "memorial", "Virgin and Martyr"⟩]
  | 11, 23 => [⟨"Saint Clement I", "optional", "Pope and Martyr"⟩]
  | 11, 24 => [⟨"Saints Andrew Dung-Lac and Companions", "memorial", "Martyrs"⟩]
  | 11, 25 => [⟨"Saint Catherine of Alexandria", "optional", "Virgin and Martyr"⟩]
  | 11, 30 => [⟨"Saint Andrew", "feast", "Apostle"⟩]
  | 12, 3 => [⟨"Saint Francis Xavier", "memorial", "Priest"⟩]
  | 12, 4 => [⟨"Saint John Damascene", "optional", "Priest and Doctor of the Church"⟩]
  | 12, 6 => [⟨"Saint Nicholas", "optional", "Bishop"⟩]
  | 12, 7 => [⟨"Saint Ambrose", "memorial", "Bishop and Doctor of the Church"⟩]
  | 12, 8 => [⟨"The Immaculate Conception of the Blessed Virgin Mary", "feast", "Patroness of the United States"⟩]
  | 12, 9 => [⟨"Saint Juan Diego", "optional", "Confessor"⟩]
  | 12, 10 => [⟨"Our Lady of Loreto", "optional", "Optional Memorial"⟩]
  | 12, 11 => [⟨"Saint Damasus I", "optional", "Pope"⟩]
  | 12, 12 => [⟨"Our Lady of Guadalupe", "feast", "Patroness of the Americas"⟩]
  | 12, 13 => [⟨"Saint Lucy", "memorial", "Virgin and Martyr"⟩]
  | 12, 14 => [⟨"Saint John of the Cross", "memorial", "Priest and Doctor of the Church"⟩]
  | 12, 21 => [⟨"Saint Peter Canisius", "optional", "Priest and Doctor of the Church"⟩]
  | 12, 23 => [⟨"Saint John of Kanty", "optional", "Priest"⟩]
  | 12, 26 => [⟨"Saint Stephen", "feast", "The First Martyr"⟩]
  | 12, 27 => [⟨"Saint John", "feast", "Apostle and Evangelist"⟩]
  | 12, 28 => [⟨"The Holy Innocents", "feast", "Martyrs"⟩]
  | 12, 29 => [⟨"Saint Thomas Becket", "optional", "Bishop and Martyr"⟩]
  | 12, 31 => [⟨"Saint Sylvester I", "optional", "Pope"⟩]
  | _, _ => []

/-- `getDayName` (src/utils/saintCalendar.js:254-257): index into the weekday
array; `getDay` only ever produces 0-6, so the default is never used. -/
def getDayName (dayOfWeek : Nat) : String :=
  ["Sunday", "Monday", "Tuesday", "Wednesday", "Thursday", "Friday",
   "Saturday"].getD dayOfWeek ""

/-- `getOrdinalSuffix` (src/utils/saintCalendar.js:264-271).  The argument is
`Int` because one caller (the Christmas-season weekday branch) can feed it a
negative week number; JavaScript `%` truncates toward zero, which is
`Int.tmod`. -/
def getOrdinalSuffix (num : Int) : String :=
  let j := Int.tmod num 10
  let k := Int.tmod num 100
  if j == 1 && k != 11 then "st"
  else if j == 2 && k != 12 then "nd"
  else if j == 3 && k != 13 then "rd"
  else "th"

/-- `getLiturgicalDay` (src/utils/saintCalendar.js:278-698): the Liturgical
Day Namer.  `normalizeDate` is `setMidnight`.  Day differences that are
non-negative on every reachable path (the date is at or after the season
anchor inside the corresponding season branch) are computed in `Nat`; the
Christmas-season difference can be negative in JavaScript for January dates
(the source subtracts December 25 of the *same* year), so that branch uses
`Int` floor division and `Int` week numbers exactly as `Math.floor` does. -/
def getLiturgicalDay (date : Nat) : SaintEntry :=
  let year := getFullYear date
  let easter := calculateEaster year
  let dayOfWeek := getDay date
  let isSunday := dayOfWeek == 0
  let checkDate := setMidnight date
  if isPalmSunday date easter then
    ⟨"Palm Sunday", "feast",
      "The Sunday of the Passion of the Lord - Commemoration of the Lord\x27s entry into Jerusalem"⟩
  else if isGoodFriday date easter then
    ⟨"Good Friday", "feast", "The Passion of the Lord - Commemoration of the Crucifixion"⟩
  else if isPentecost date easter then
    ⟨"Pentecost Sunday", "feast", "The Descent of the Holy Spirit upon the Apostles"⟩
  else if isGaudeteSunday date then
    ⟨"Gaudete Sunday", "feast", "Third Sunday of Advent - Rejoice Sunday"⟩
  else if isLaetareSunday date easter then
    ⟨"Laetare Sunday", "feast", "Fourth Sunday of Lent - Rejoice Sunday"⟩
  else
  let easterDate := setMidnight easter
  if checkDate == easterDate then
    ⟨"Easter Sunday", "feast", "The Resurrection of the Lord - The Paschal Feast"⟩
  else if getMonth date == 11 && getDate date == 25 then
    ⟨"Christmas", "feast", "The Nativity of the Lord"⟩
  else if getMonth date == 0 && getDate date == 6 then
    ⟨"Epiphany of the Lord", "feast", "The Manifestation of Christ to the Magi"⟩
  else
  let ashWednesday := easter - 46 * msPerDay
  if checkDate == setMidnight ashWednesday then
    ⟨"Ash Wednesday", "feast", "The beginning of Lent - Day of fasting and repentance"⟩
  else
  let holyThursday := easter - 3 * msPerDay
  if checkDate == setMidnight holyThursday then
    ⟨"Holy Thursday", "feast", "The Mass of the Lord\x27s Supper - Institution of the Eucharist"⟩
  else
  let holySaturday := easter - 1 * msPerDay
  if checkDate == setMidnight holySaturday then
    ⟨"Holy Saturday", "feast", "Easter Vigil - The Great Sabbath"⟩
  else if isEasterSeason date easter then
    let daysAfterEaster := (checkDate - easterDate) / msPerDay
    if daysAfterEaster == 0 then
      ⟨"Easter Sunday", "feast", "The Resurrection of the Lord"⟩
    else if daysAfterEaster ≤ 7 then
      let dayWord :=
        if daysAfterEaster == 1 then "Monday"
        else if daysAfterEaster == 2 then "Tuesday"
        else if daysAfterEaster == 3 then "Wednesday"
        else if daysAfterEaster == 4 then "Thursday"
        else if daysAfterEaster == 5 then "Friday"
        else if daysAfterEaster == 6 then "Saturday"
        else "Sunday"
      ⟨s!"Easter {dayWord}", "feast", s!"Day {daysAfterEaster} of the Octave of Easter"⟩
    else
      -- the `if (isSunday)` ladder falls through to the weekday wording
      -- when none of its numbered cases hits
      let sundayWeek := daysAfterEaster / 7
      if isSunday && sundayWeek == 2 then
        ⟨"Second Sunday of Easter", "feast", "Divine Mercy Sunday"⟩
      else if isSunday && sundayWeek == 3 then
        ⟨"Third Sunday of Easter", "feast", "Easter Season"⟩
      else if isSunday && sundayWeek == 4 then
        ⟨"Fourth Sunday of Easter", "feast", "Good Shepherd Sunday"⟩
      else if isSunday && sundayWeek == 5 then
        ⟨"Fifth Sunday of Easter", "feast", "Easter Season"⟩
      else if isSunday && sundayWeek == 6 then
        ⟨"Sixth Sunday of Easter", "feast", "Easter Season"⟩
      else if isSunday && sundayWeek == 7 then
        ⟨"Ascension of the Lord", "feast", "The Ascension of Christ into Heaven"⟩
      else
        let dayName := getDayName dayOfWeek
        let weekNumber := daysAfterEaster / 7 + 1
        let ordinal :=
          if weekNumber == 1 then "first"
          else if weekNumber == 2 then "second"
          else if weekNumber == 3 then "third"
          else if weekNumber == 4 then "fourth"
          else if weekNumber == 5 then "fifth"
          else if weekNumber == 6 then "sixth"
          else if weekNumber == 7 then "seventh"
          else
            let suffix := getOrdinalSuffix weekNumber
            s!"{weekNumber}{suffix}"
        ⟨s!"{dayName} of the {ordinal} week of Easter", "none",
          "A weekday in the Easter Season - The Great Fifty Days"⟩
  else if isChristmasSeason date then
    let month := getMonth date
    let day := getDate date
    if month == 11 && day == 25 then
      ⟨"Christmas", "feast", "The Nativity of the Lord"⟩
    else if month == 11 && day == 26 then
      ⟨"Saint Stephen", "feast", "The First Martyr"⟩
    else if month == 11 && day == 27 then
      ⟨"Saint John", "feast", "Apostle and Evangelist"⟩
    else if month == 11 && day == 28 then
      ⟨"The Holy Innocents", "feast", "Martyrs"⟩
    else if month == 0 && day == 1 then
      ⟨"Mary, Mother of God", "feast", "Solemnity of Mary, the Holy Mother of God"⟩
    else if month == 0 && day == 6 then
      ⟨"Epiphany of the Lord", "feast", "The Manifestation of Christ to the Magi"⟩
    else
      let dayName := getDayName dayOfWeek
      let christmasNormalized := setMidnight (mkDate year 11 25)
      let daysSinceChristmas : Int :=
        Int.fdiv ((checkDate : Int) - (christmasNormalized : Int)) (msPerDay : Int)
      let weekNumber : Int := Int.fdiv daysSinceChristmas 7 + 1
      let ordinal :=
        if weekNumber == 1 then "first"
        else if weekNumber == 2 then "second"
        else
          let suffix := getOrdinalSuffix weekNumber
          s!"{weekNumber}{suffix}"
      ⟨s!"{dayName} of the {ordinal} week of Christmas", "none",
        "A weekday in the Christmas Season"⟩
  else if isLent date easter then
    let ashWednesdayNormalized := setMidnight (easter - 46 * msPerDay)
    let daysSinceAshWednesday := (checkDate - ashWednesdayNormalized) / msPerDay
    let weekNumber := daysSinceAshWednesday / 7 + 1
    if isSunday && weekNumber == 1 then
      ⟨"First Sunday of Lent", "feast", "The Temptation of Christ in the Desert"⟩
    else if isSunday && weekNumber == 2 then
      ⟨"Second Sunday of Lent", "feast", "The Transfiguration of the Lord"⟩
    else if isSunday && weekNumber == 3 then
      ⟨"Third Sunday of Lent", "feast", "The Woman at the Well"⟩
    else if isSunday && weekNumber == 4 then
      ⟨"Laetare Sunday", "feast", "Fourth Sunday of Lent - Rejoice Sunday"⟩
    else if isSunday && weekNumber == 5 then
      ⟨"Fifth Sunday of Lent", "feast", "The Raising of Lazarus"⟩
    else
      let dayName := getDayName dayOfWeek
      let ordinal :=
        if weekNumber == 1 then "first"
        else if weekNumber == 2 then "second"
        else if weekNumber == 3 then "third"
        else if weekNumber == 4 then "fourth"
        else if weekNumber == 5 then "fifth"
        else
          let suffix := getOrdinalSuffix weekNumber
          s!"{weekNumber}{suffix}"
      ⟨s!"{dayName} of the {ordinal} week of Lent", "none",
        "A weekday in the Season of Lent - A time of prayer, fasting, and almsgiving"⟩
  else if isAdvent date then
    let firstSundayNormalized := setMidnight (getAdventSunday year 1)
    let daysSinceFirstSunday := (checkDate - firstSundayNormalized) / msPerDay
    let weekNumber := daysSinceFirstSunday / 7 + 1
    if isSunday && weekNumber == 1 then
      ⟨"First Sunday of Advent", "feast", "The Coming of the Lord"⟩
    else if isSunday && weekNumber == 2 then
      ⟨"Second Sunday of Advent", "feast", "Prepare the Way of the Lord"⟩
    else if isSunday && weekNumber == 3 then
      ⟨"Gaudete Sunday", "feast", "Third Sunday of Advent - Rejoice Sunday"⟩
    else if isSunday && weekNumber == 4 then
      ⟨"Fourth Sunday of Advent", "feast", "The Birth of the Lord is Near"⟩
    else
      let dayName := getDayName dayOfWeek
      let ordinal :=
        if weekNumber == 1 then "first"
        else if weekNumber == 2 then "second"
        else if weekNumber == 3 then "third"
        else if weekNumber == 4 then "fourth"
        else
          let suffix := getOrdinalSuffix weekNumber
          s!"{weekNumber}{suffix}"
      ⟨s!"{dayName} of the {ordinal} week of Advent", "none",
        "A weekday in the Season of Advent - Preparing for the Coming of Christ"⟩
  else
    -- Ordinary Time (src/utils/saintCalendar.js:622-697)
    let epiphany := mkDate year 0 6
    let epiphanyDayOfWeek := getDay epiphany
    let baptism :=
      if epiphanyDayOfWeek == 0 then epiphany + 7 * msPerDay
      else epiphany + (7 - epiphanyDayOfWeek) * msPerDay
    let pentecost := easter + 49 * msPerDay
    let firstSundayAdvent := getAdventSunday year 1
    let baptismNormalized := setMidnight baptism
    let ashWednesdayNormalizedOT := setMidnight (easter - 46 * msPerDay)
    if decide (baptismNormalized < checkDate) && decide (checkDate < ashWednesdayNormalizedOT) then
      let daysSinceBaptism := (checkDate - baptismNormalized) / msPerDay
      let weekNumber := daysSinceBaptism / 7 + 1
      if isSunday then
        let shortSuffix :=
          if weekNumber == 1 then "st"
          else if weekNumber == 2 then "nd"
          else if weekNumber == 3 then "rd"
          else "th"
        ⟨s!"{weekNumber}{shortSuffix} Sunday of Ordinary Time", "none",
          "A Sunday in Ordinary Time"⟩
      else
        let dayName := getDayName dayOfWeek
        let ordinal :=
          if weekNumber == 1 then "first"
          else if weekNumber == 2 then "second"
          else if weekNumber == 3 then "third"
          else
            let suffix := getOrdinalSuffix weekNumber
            s!"{weekNumber}{suffix}"
        ⟨s!"{dayName} of the {ordinal} week of Ordinary Time", "none",
          "A weekday in Ordinary Time"⟩
    else
      let pentecostNormalized := setMidnight pentecost
      let firstSundayAdventNormalized := setMidnight firstSundayAdvent
      if decide (pentecostNormalized < checkDate) &&
          decide (checkDate < firstSundayAdventNormalized) then
        let daysSincePentecost := (checkDate - pentecostNormalized) / msPerDay
        let weekNumber := daysSincePentecost / 7 + 1
        if isSunday then
          let shortSuffix :=
            if weekNumber == 1 then "st"
            else if weekNumber == 2 then "nd"
            else if weekNumber == 3 then "rd"
            else "th"
          ⟨s!"{weekNumber}{shortSuffix} Sunday of Ordinary Time", "none",
            "A Sunday in Ordinary Time"⟩
        else
          let dayName := getDayName dayOfWeek
          let ordinal :=
            if weekNumber == 1 then "first"
            else if weekNumber == 2 then "second"
            else if weekNumber == 3 then "third"
            else
              let suffix := getOrdinalSuffix weekNumber
              s!"{weekNumber}{suffix}"
          ⟨s!"{dayName} of the {ordinal} week of Ordinary Time", "none",
            "A weekday in Ordinary Time"⟩
      else
        ⟨"Ordinary Time", "none", "A day in Ordinary Time"⟩

/-- `getSaintsForDate` (src/utils/saintCalendar.js:705-717). -/
def getSaintsForDate (date : Nat) : List SaintEntry :=
  let month := getMonth date + 1
  let day := getDate date
  let saints := SAINT_CALENDAR month day
  if saints.length == 0 then [getLiturgicalDay date]
  else saints

/-- An element of the lists built by `getUpcomingFeasts` and
`getFeastsInRange`: the source stores the day as an ISO `YYYY-MM-DD` string
plus a full timestamp, both determined by the date value kept here. -/
structure FeastDay where
  date : Nat
  saints : List SaintEntry
deriving DecidableEq

/-- The `for (let i = 1; i <= days; i++)` loop of `getUpcomingFeasts`
(src/utils/saintCalendar.js:743-759), unrolled structurally: `i` is the
current offset, the second argument counts the remaining iterations. -/
def upcomingFrom (today : Nat) : Nat → Nat → List FeastDay
  | _, 0 => []
  | i, n + 1 =>
    let futureDate := today + i * msPerDay
    let saints := getSaintsForDate futureDate
    (if saints.length > 0 then [⟨futureDate, saints⟩] else []) ++
      upcomingFrom today (i + 1) n

/-- `getUpcomingFeasts` (src/utils/saintCalendar.js:739-762), parameterized
by the current timestamp `today` (`new Date()` in the source); the source
default for `days` is 9. -/
def getUpcomingFeasts (today days : Nat) : List FeastDay :=
  upcomingFrom today 1 days

/-- The `while (currentDate <= endDate)` loop of `getFeastsInRange`
(src/utils/saintCalendar.js:774-786): keep days whose first saint entry has a
type other than `none`/`ordinary`. -/
def feastsRangeLoop (endDate currentDate : Nat) : List FeastDay :=
  if h : currentDate ≤ endDate then
    let saints := getSaintsForDate currentDate
    (match saints with
     | s0 :: _ =>
       if s0.type != "none" && s0.type != "ordinary" then [⟨currentDate, saints⟩]
       else []
     | [] => []) ++ feastsRangeLoop endDate (currentDate + msPerDay)
  else []
termination_by endDate + 1 - currentDate
decreasing_by simp only [msPerDay]; omega

/-- `getFeastsInRange` (src/utils/saintCalendar.js:770-789). -/
def getFeastsInRange (startDate endDate : Nat) : List FeastDay :=
  feastsRangeLoop endDate startDate

/-- The two response shapes of the `GET /api/saints/range` handler:
`res.status(400).json({ message })` and `res.json({ feasts, count })`. -/
inductive SaintsRangeResult where
  | badRequest (message : String)
  | ok (feasts : List FeastDay) (count : Nat)
deriving DecidableEq

/-- The `GET /api/saints/range` handler (src/routes/saints.js:63-88).
`parseDate` abstracts the JavaScript `new Date(string)` parser (`none` when
`getTime()` is `NaN`, i.e. the string is unparseable); `startParam` and
`endParam` are the raw query parameters, `none` when absent.  The JavaScript
`!start || !end` guard is falsy for a missing *or empty* string, checked
before anything is parsed or computed. -/
def saintsRangeHandler (parseDate : String → Option Nat)
    (startParam endParam : Option String) : SaintsRangeResult :=
  match startParam, endParam with
  | some startStr, some endStr =>
    if startStr == "" || endStr == "" then
      .badRequest "Start and end dates are required (YYYY-MM-DD)"
    else
      match parseDate startStr, parseDate endStr with
      | some startDate, some endDate =>
        if endDate < startDate then
          .badRequest "Start date must be before end date"
        else
          let feasts := getFeastsInRange startDate endDate
          .ok feasts feasts.length
      | _, _ => .badRequest "Invalid date format. Use YYYY-MM-DD"
  | _, _ => .badRequest "Start and end dates are required (YYYY-MM-DD)"

/-! ## Verification helpers

Definitions used only by the proofs below (witness collaborators for the
injected dependencies, and arithmetic abbreviations for the Gregorian
conversion lemmas); they embed no source code. -/

/-- A persisted-override store for the witness of C1: a `gold` override is
stored under the midnight key of 2024-06-18 (an Ordinary-Time Tuesday). -/
def c1Store : Nat → Except Unit (Option OverrideDoc) := fun t =>
  if t == setMidnight (mkDate 2024 5 18) then .ok (some ⟨"gold"⟩) else .ok none

/-- A throwing override store (every lookup rejects), for the C4 witness. -/
def c4Store : Nat → Except Unit (Option OverrideDoc) := fun _ => .error ()

/-- A throwing saint-calendar accessor, for the C4 witness. -/
def c4SaintFn : Nat → Except Unit (List SaintEntry) := fun _ => .error ()

/-- A concrete parser for the C9 witness, defined on two ISO date strings. -/
def c9Parse : String → Option Nat := fun s =>
  if s == "2024-06-01" then some (mkDate 2024 5 1)
  else if s == "2024-06-03" then some (mkDate 2024 5 3)
  else none

/-- The leap-corrected day count inside `civilFromDays` (its `yoe` numerator
as a function of the day-of-era). -/
def gcorr (doe : Nat) : Nat := doe - doe / 1460 + doe / 36524 - doe / 146096

/-- First day-of-era of year-of-era `yoe` (years starting March 1). -/
def yearStart (yoe : Nat) : Nat := yoe * 365 + yoe / 4 - yoe / 100

/-- Length of month `m` (1-indexed) in a non-leap year; used as the validity
bound of the conversion roundtrip (February 29 never arises below since all
dates of interest lie in March-December). -/
def monthLen : Nat → Nat
  | 2 => 28
  | 4 | 6 | 9 | 11 => 30
  | _ => 31

/-- Day number of the (shifted) year start of calendar year `y`: the day
number of `y`-03-01 minus its day-of-year offset; `daysFromCivil y m d` for
`m ≥ 3` equals `yearBase y` plus the day-of-year of `(m, d)`. -/
def yearBase (y : Nat) : Nat :=
  y / 400 * 146097 + (y % 400 * 365 + y % 400 / 4 - y % 400 / 100)

/-- Month/day pair of a March-relative day-of-year (inverse of the
`(153 * mp + 2) / 5` day-of-year formula), 1-indexed month. -/
def doyToMD (t : Nat) : Nat × Nat :=
  let mp := (5 * t + 2) / 153
  (mp + 3, t - (153 * mp + 2) / 5 + 1)

/-- The months of `calculateEaster`'s Computus, split out of the source
function so its result can be named in bounds lemmas;
`calculateEaster_eq` proves (definitionally) that `calculateEaster` is
`mkDate` of `easterMonth`/`easterDay`. -/
def easterMonth (year : Nat) : Nat :=
  let a := year % 19
  let b := year / 100
  let c := year % 100
  let d := b / 4
  let e := b % 4
  let f := (b + 8) / 25
  let g := (b - f + 1) / 3
  let h := (19 * a + b - d - g + 15) % 30
  let i := c / 4
  let k := c % 4
  let l := (32 + 2 * e + 2 * i - h - k) % 7
  let m := (a + 11 * h + 22 * l) / 451
  (h + l - 7 * m + 114) / 31

/-- The day-of-month of `calculateEaster`'s Computus (see `easterMonth`). -/
def easterDay (year : Nat) : Nat :=
  let a := year % 19
  let b := year / 100
  let c := year % 100
  let d := b / 4
  let e := b % 4
  let f := (b + 8) / 25
  let g := (b - f + 1) / 3
  let h := (19 * a + b - d - g + 15) % 30
  let i := c / 4
  let k := c % 4
  let l := (32 + 2 * e + 2 * i - h - k) % 7
  let m := (a + 11 * h + 22 * l) / 451
  (h + l - 7 * m + 114) % 31 + 1

/-- The fixed-date feast predicate of the classifier: the disjunction of the
hardcoded `(month, day)` white-feast checks of `getLiturgicalColor`
(0-indexed month, as the classifier reads the fields). -/
def fixedFeastDay (month day : Nat) : Bool :=
  (month == 11 && day == 8) || ((month == 11 && day == 12) ||
  ((month == 2 && day == 19) || ((month == 2 && day == 25) ||
  ((month == 1 && day == 2) || ((month == 0 && day == 6) ||
  ((month == 0 && day == 1) || ((month == 7 && day == 6) ||
  ((month == 7 && day == 15) || ((month == 8 && day == 8) ||
  ((month == 8 && day == 14) || ((month == 10 && day == 1) ||
  ((month == 10 && day == 9) || ((month == 5 && day == 29) ||
  ((month == 5 && day == 24) || ((month == 1 && day == 22) ||
  ((month == 0 && day == 25) || ((month == 4 && day == 31) ||
  ((month == 4 && day == 3) || ((month == 4 && day == 14) ||
  ((month == 6 && day == 3) || ((month == 6 && day == 25) ||
  ((month == 6 && day == 22) || ((month == 7 && day == 24) ||
  ((month == 8 && day == 21) || ((month == 8 && day == 29) ||
  ((month == 9 && day == 18) || ((month == 9 && day == 28) ||
  ((month == 10 && day == 30) || ((month == 3 && day == 25) ||
  ((month == 7 && day == 10) ||
  (month == 11 && (day == 26 || day == 27 || day == 28))))))))))))))))))))))))))))))))

/-! ## Gregorian conversion lemmas

`daysFromCivil`/`civilFromDays` are the embedding of the JavaScript `Date`
field semantics; these lemmas establish that the conversion round-trips on
the March-December dates the liturgical computations touch, so that the
`new Date(getFullYear, getMonth, getDate)` time-stripping idiom is the
identity on midnight timestamps. -/

theorem gcorr_mono_step (a : Nat) : gcorr a ≤ gcorr (a + 1) := by
  unfold gcorr; omega

theorem gcorr_mono (a b : Nat) (h : a ≤ b) : gcorr a ≤ gcorr b := by
  induction b with
  | zero =>
    have ha : a = 0 := by omega
    subst ha; exact le_refl _
  | succ b ih =>
    rcases Nat.lt_succ_iff_lt_or_eq.mp (Nat.lt_succ_of_le h) with h2 | h2
    · exact le_trans (ih (by omega)) (gcorr_mono_step b)
    · subst h2; exact le_refl _

set_option maxRecDepth 2000 in
/-- The leap-corrected count lands in the right 365-day band at both ends of
every year of an era. -/
theorem yoe_endpoints : ∀ yoe < 400,
    365 * yoe ≤ gcorr (yearStart yoe) ∧
    gcorr (yearStart yoe + 364) ≤ 365 * yoe + 364 := by decide

/-- `civilFromDays` recovers the year-of-era from a day-of-era. -/
theorem yoe_extract (yoe doy doe : Nat)
    (hdoe : doe = yoe * 365 + yoe / 4 - yoe / 100 + doy)
    (h1 : yoe ≤ 399) (h2 : doy ≤ 364) :
    (doe - doe / 1460 + doe / 36524 - doe / 146096) / 365 = yoe := by
  have h := yoe_endpoints yoe (by omega)
  have hlo := gcorr_mono (yearStart yoe) (yearStart yoe + doy) (by omega)
  have hhi := gcorr_mono (yearStart yoe + doy) (yearStart yoe + 364) (by omega)
  have heq : yearStart yoe + doy = doe := by unfold yearStart; omega
  rw [heq] at hlo hhi
  unfold gcorr yearStart at h hlo hhi
  omega

theorem civilFromDays_eval (era doe yoe doy : Nat)
    (hdoe : doe = yoe * 365 + yoe / 4 - yoe / 100 + doy)
    (hyoe : yoe ≤ 399) (hdoy : doy ≤ 364) :
    civilFromDays (era * 146097 + doe) =
      (if (if (5 * doy + 2) / 153 < 10 then (5 * doy + 2) / 153 + 3
           else (5 * doy + 2) / 153 - 9) ≤ 2
       then yoe + era * 400 + 1 else yoe + era * 400,
       if (5 * doy + 2) / 153 < 10 then (5 * doy + 2) / 153 + 3
       else (5 * doy + 2) / 153 - 9,
       doy - (153 * ((5 * doy + 2) / 153) + 2) / 5 + 1) := by
  have hdlt : doe < 146097 := by omega
  have h1 : (era * 146097 + doe) / 146097 = era := by omega
  have h2 : (era * 146097 + doe) % 146097 = doe := by omega
  simp only [civilFromDays, h1, h2, yoe_extract yoe doy doe hdoe hyoe hdoy]
  have hdoy2 : doe - (365 * yoe + yoe / 4 - yoe / 100) = doy := by omega
  rw [hdoy2]

/-- For a March-December month, `daysFromCivil` splits into the year base
plus the day-of-year. -/
theorem daysFromCivil_form (y m d : Nat) (h3 : 3 ≤ m) :
    daysFromCivil y m d =
      y / 400 * 146097 +
        (y % 400 * 365 + y % 400 / 4 - y % 400 / 100 +
          ((153 * (m - 3) + 2) / 5 + (d - 1))) := by
  unfold daysFromCivil
  rw [if_neg (show ¬ m ≤ 2 by omega), if_pos (show m > 2 by omega)]

/-- The conversion round-trips on valid March-December dates. -/
theorem civilFromDays_daysFromCivil (y m d : Nat) (h3 : 3 ≤ m) (h12 : m ≤ 12)
    (hd1 : 1 ≤ d) (hdlen : d ≤ monthLen m) :
    civilFromDays (daysFromCivil y m d) = (y, m, d) := by
  have hdoy : (153 * (m - 3) + 2) / 5 + (d - 1) ≤ 364 := by
    interval_cases m <;> simp_all [monthLen] <;> omega
  rw [daysFromCivil_form y m d h3,
    civilFromDays_eval (y / 400) _ (y % 400) ((153 * (m - 3) + 2) / 5 + (d - 1))
      rfl (by omega) hdoy]
  have hmp : (5 * ((153 * (m - 3) + 2) / 5 + (d - 1)) + 2) / 153 = m - 3 := by
    interval_cases m <;> simp_all [monthLen] <;> omega
  rw [hmp, if_pos (show m - 3 < 10 by omega),
    if_neg (show ¬ (m - 3 + 3 ≤ 2) by omega)]
  refine Prod.ext ?_ (Prod.ext ?_ ?_) <;> simp <;> omega

theorem msPerDay_pos : 0 < msPerDay := by decide

theorem day_div (z : Nat) : z * msPerDay / msPerDay = z :=
  Nat.mul_div_cancel z msPerDay_pos

/-- `getFullYear` at the midnight timestamp of a valid March-December
date. -/
theorem getFullYear_day (y m d : Nat) (h3 : 3 ≤ m) (h12 : m ≤ 12)
    (hd1 : 1 ≤ d) (hdlen : d ≤ monthLen m) :
    getFullYear (daysFromCivil y m d * msPerDay) = y := by
  unfold getFullYear
  rw [day_div, civilFromDays_daysFromCivil y m d h3 h12 hd1 hdlen]

/-- `getMonth` (0-indexed) at the midnight timestamp of a valid
March-December date. -/
theorem getMonth_day (y m d : Nat) (h3 : 3 ≤ m) (h12 : m ≤ 12)
    (hd1 : 1 ≤ d) (hdlen : d ≤ monthLen m) :
    getMonth (daysFromCivil y m d * msPerDay) = m - 1 := by
  unfold getMonth
  rw [day_div, civilFromDays_daysFromCivil y m d h3 h12 hd1 hdlen]

/-- `getDate` at the midnight timestamp of a valid March-December date. -/
theorem getDate_day (y m d : Nat) (h3 : 3 ≤ m) (h12 : m ≤ 12)
    (hd1 : 1 ≤ d) (hdlen : d ≤ monthLen m) :
    getDate (daysFromCivil y m d * msPerDay) = d := by
  unfold getDate
  rw [day_div, civilFromDays_daysFromCivil y m d h3 h12 hd1 hdlen]

/-- The time-stripping idiom is the identity at the midnight timestamp of a
valid March-December date. -/
theorem stripTime_day (y m d : Nat) (h3 : 3 ≤ m) (h12 : m ≤ 12)
    (hd1 : 1 ≤ d) (hdlen : d ≤ monthLen m) :
    stripTime (daysFromCivil y m d * msPerDay) = daysFromCivil y m d * msPerDay := by
  unfold stripTime mkDate
  rw [getFullYear_day y m d h3 h12 hd1 hdlen, getMonth_day y m d h3 h12 hd1 hdlen,
    getDate_day y m d h3 h12 hd1 hdlen]
  have hm : m - 1 + 1 = m := by omega
  rw [hm]

set_option maxRecDepth 2000 in
/-- The day-of-year inversion table is valid on all March-December
day-of-year values. -/
theorem doyToMD_valid : ∀ t < 306,
    3 ≤ (doyToMD t).1 ∧ (doyToMD t).1 ≤ 12 ∧ 1 ≤ (doyToMD t).2 ∧
    (doyToMD t).2 ≤ monthLen (doyToMD t).1 ∧
    (153 * ((doyToMD t).1 - 3) + 2) / 5 + ((doyToMD t).2 - 1) = t := by decide

/-- Every March-relative day-of-year `t ≤ 305` of any year is a valid
March-December civil date with day number `yearBase y + t`. -/
theorem dayInYear (y t : Nat) (ht : t ≤ 305) :
    ∃ m d, 3 ≤ m ∧ m ≤ 12 ∧ 1 ≤ d ∧ d ≤ monthLen m ∧
      yearBase y + t = daysFromCivil y m d ∧
      (153 * (m - 3) + 2) / 5 + (d - 1) = t := by
  obtain ⟨h3, h12, hd1, hdlen, hdoy⟩ := doyToMD_valid t (by omega)
  refine ⟨(doyToMD t).1, (doyToMD t).2, h3, h12, hd1, hdlen, ?_, hdoy⟩
  rw [daysFromCivil_form _ _ _ h3, hdoy]
  unfold yearBase
  omega

/-- Time-stripping and the year field at `yearBase`-relative midnight
timestamps. -/
theorem stripTime_yearBase (y t : Nat) (ht : t ≤ 305) :
    stripTime ((yearBase y + t) * msPerDay) = (yearBase y + t) * msPerDay ∧
    getFullYear ((yearBase y + t) * msPerDay) = y := by
  obtain ⟨m, d, h3, h12, hd1, hdlen, heq, _⟩ := dayInYear y t ht
  rw [heq]
  exact ⟨stripTime_day y m d h3 h12 hd1 hdlen,
    getFullYear_day y m d h3 h12 hd1 hdlen⟩

/-- `calculateEaster` is `mkDate` of the split-out Computus month/day
(definitional). -/
theorem calculateEaster_eq (year : Nat) :
    calculateEaster year = mkDate year (easterMonth year - 1) (easterDay year) := rfl

/-- Bounds of the final Computus division step, over abstract intermediates
(`a < 19` is the year's Golden-Number index, `h < 30` and `l < 7` the
epact/weekday corrections). -/
theorem computus_bounds (a h l : Nat) (ha : a ≤ 18) (hh : h ≤ 29) (hl : l ≤ 6) :
    ((h + l - 7 * ((a + 11 * h + 22 * l) / 451) + 114) / 31 = 3 ∧
      22 ≤ (h + l - 7 * ((a + 11 * h + 22 * l) / 451) + 114) % 31 + 1 ∧
      (h + l - 7 * ((a + 11 * h + 22 * l) / 451) + 114) % 31 + 1 ≤ 31) ∨
    ((h + l - 7 * ((a + 11 * h + 22 * l) / 451) + 114) / 31 = 4 ∧
      1 ≤ (h + l - 7 * ((a + 11 * h + 22 * l) / 451) + 114) % 31 + 1 ∧
      (h + l - 7 * ((a + 11 * h + 22 * l) / 451) + 114) % 31 + 1 ≤ 25) := by
  omega

/-- The Computus month/day lands on March 22-31 or April 1-25. -/
theorem easter_bounds (year : Nat) :
    (easterMonth year = 3 ∧ 22 ≤ easterDay year ∧ easterDay year ≤ 31) ∨
    (easterMonth year = 4 ∧ 1 ≤ easterDay year ∧ easterDay year ≤ 25) := by
  simp only [easterMonth, easterDay]
  exact computus_bounds _ _ _ (by omega) (by omega) (by omega)

/-- Easter Sunday's day number is `yearBase` plus a day-of-year in
`[21, 55]` (March 22 through April 25). -/
theorem easterForm (year : Nat) :
    ∃ t, calculateEaster year = (yearBase year + t) * msPerDay ∧
      21 ≤ t ∧ t ≤ 55 := by
  have hb := easter_bounds year
  have heq : calculateEaster year =
      daysFromCivil year (easterMonth year) (easterDay year) * msPerDay := by
    rw [calculateEaster_eq]
    unfold mkDate
    rcases hb with ⟨hm, _⟩ | ⟨hm, _⟩ <;> rw [hm]
  set em := easterMonth year with hem
  set ed := easterDay year with hed
  clear_value em ed
  rw [heq, daysFromCivil_form year em ed
    (by rcases hb with ⟨hm, _⟩ | ⟨hm, _⟩ <;> omega)]
  refine ⟨(153 * (em - 3) + 2) / 5 + (ed - 1), ?_, ?_, ?_⟩
  · apply congrArg (· * msPerDay)
    unfold yearBase
    omega
  · rcases hb with ⟨hm, hd1, hd2⟩ | ⟨hm, hd1, hd2⟩ <;> subst hm <;> omega
  · rcases hb with ⟨hm, hd1, hd2⟩ | ⟨hm, hd1, hd2⟩ <;> subst hm <;> omega

/-- December 25 as a `yearBase`-relative timestamp. -/
theorem christmas_form (year : Nat) :
    mkDate year 11 25 = (yearBase year + 299) * msPerDay := by
  unfold mkDate
  rw [show (11 : Nat) + 1 = 12 from rfl, daysFromCivil_form year 12 25 (by omega)]
  apply congrArg (· * msPerDay)
  unfold yearBase
  omega

/-- The third Advent Sunday is `yearBase` plus a day-of-year in `[285, 291]`
(December 11-17), and the first Advent Sunday is 14 days before it. -/
theorem adventSunday_form (year : Nat) :
    ∃ u, getAdventSunday year 3 = (yearBase year + u) * msPerDay ∧
      285 ≤ u ∧ u ≤ 291 ∧
      getAdventSunday year 1 = (yearBase year + (u - 14)) * msPerDay := by
  simp only [getAdventSunday, getDay, christmas_form year, day_div]
  split
  · next hdow =>
    refine ⟨285, ?_, by omega, by omega, ?_⟩ <;>
      · simp only [msPerDay]
        omega
  · next hdow =>
    simp only [beq_iff_eq] at hdow
    have h7 : (yearBase year + 299 + 3) % 7 ≤ 6 := by omega
    have h1 : 1 ≤ (yearBase year + 299 + 3) % 7 := by omega
    refine ⟨292 - (yearBase year + 299 + 3) % 7, ?_, by omega, by omega, ?_⟩ <;>
      · simp only [msPerDay] at *
        omega

/-- `getMonth`/`getDate` at a `yearBase`-relative midnight timestamp, with
the day-of-year equation relating them to the offset. -/
theorem fields_yearBase (y t : Nat) (ht : t ≤ 305) :
    ∃ m d, 3 ≤ m ∧ m ≤ 12 ∧ 1 ≤ d ∧ d ≤ 31 ∧
      getMonth ((yearBase y + t) * msPerDay) = m - 1 ∧
      getDate ((yearBase y + t) * msPerDay) = d ∧
      (153 * (m - 3) + 2) / 5 + (d - 1) = t := by
  obtain ⟨m, d, h3, h12, hd1, hdlen, heq, hdoy⟩ := dayInYear y t ht
  have hd31 : d ≤ 31 := le_trans hdlen (by interval_cases m <;> simp [monthLen])
  refine ⟨m, d, h3, h12, hd1, hd31, ?_, ?_, hdoy⟩
  · rw [heq]; exact getMonth_day y m d h3 h12 hd1 hdlen
  · rw [heq]; exact getDate_day y m d h3 h12 hd1 hdlen

/-! ## Classifier branch lemmas -/

/-- With no collaborators wired in, a date on which one of the Palm
Sunday/Good Friday/Pentecost checks fires is classified red. -/
theorem calc_red (date : Nat)
    (h : (isPalmSunday date (calculateEaster (getFullYear date)) ||
          isGoodFriday date (calculateEaster (getFullYear date)) ||
          isPentecost date (calculateEaster (getFullYear date))) = true) :
    getLiturgicalColor none none date none = .red := by
  simp only [getLiturgicalColor, h, saintFeastOverride, Bool.false_eq_true,
    if_false, if_true]

/-- With no collaborators wired in, a Gaudete Sunday that is none of the red
special days is classified rose. -/
theorem calc_rose (date : Nat)
    (h1 : (isPalmSunday date (calculateEaster (getFullYear date)) ||
           isGoodFriday date (calculateEaster (getFullYear date)) ||
           isPentecost date (calculateEaster (getFullYear date))) = false)
    (h2 : isGaudeteSunday date = true) :
    getLiturgicalColor none none date none = .rose := by
  simp only [getLiturgicalColor, h1, h2, saintFeastOverride, Bool.false_eq_true,
    if_false, if_true]

/-- With no collaborators wired in, a date inside the Easter season that is
none of the special days is classified white (every intervening fixed-date
branch is also white). -/
theorem calc_white_easterSeason (date : Nat)
    (h1 : (isPalmSunday date (calculateEaster (getFullYear date)) ||
           isGoodFriday date (calculateEaster (getFullYear date)) ||
           isPentecost date (calculateEaster (getFullYear date))) = false)
    (h2 : isGaudeteSunday date = false)
    (h3 : isLaetareSunday date (calculateEaster (getFullYear date)) = false)
    (h4 : isEasterSeason date (calculateEaster (getFullYear date)) = true) :
    getLiturgicalColor none none date none = .white := by
  simp only [getLiturgicalColor, h1, h2, h3, h4, saintFeastOverride,
    Bool.false_eq_true, if_false, eq_self_iff_true, if_true, ite_self]

/-- With no collaborators wired in, a date that is no special day, carries
no fixed-date feast, and lies in none of the colored seasons is classified
green (both the Ordinary-Time window branch and the default are green). -/
theorem calc_green (date : Nat)
    (h1 : (isPalmSunday date (calculateEaster (getFullYear date)) ||
           isGoodFriday date (calculateEaster (getFullYear date)) ||
           isPentecost date (calculateEaster (getFullYear date))) = false)
    (h2 : isGaudeteSunday date = false)
    (h3 : isLaetareSunday date (calculateEaster (getFullYear date)) = false)
    (hff : fixedFeastDay (getMonth date) (getDate date) = false)
    (h4 : isEasterSeason date (calculateEaster (getFullYear date)) = false)
    (h5 : isChristmasSeason date = false)
    (h6 : isLent date (calculateEaster (getFullYear date)) = false)
    (h7 : isAdvent date = false) :
    getLiturgicalColor none none date none = .green := by
  have hffs := hff
  simp only [fixedFeastDay, Bool.or_eq_false_iff] at hffs
  obtain ⟨f1, f2, f3, f4, f5, f6, f7, f8, f9, f10, f11, f12, f13, f14, f15,
    f16, f17, f18, f19, f20, f21, f22, f23, f24, f25, f26, f27, f28, f29,
    f30, f31, f32⟩ := hffs
  simp only [getLiturgicalColor, h1, h2, h3, h4, h5, h6, h7, saintFeastOverride,
    f1, f2, f3, f4, f5, f6, f7, f8, f9, f10, f11, f12, f13, f14, f15, f16,
    f17, f18, f19, f20, f21, f22, f23, f24, f25, f26, f27, f28, f29, f30,
    f31, f32, Bool.false_eq_true, if_false, ite_self]

/-! ## Claims -/

/-- C2: for every date `D` — whatever the wiring of the override store and
saint-calendar collaborators, and whatever the explicit override argument —
`getLiturgicalColor` returns exactly one of the six defined colors: the
selection is a total function into `{white, red, green, purple, rose, gold}`
and no input reaches a failure path (the collaborators may even throw; the
result is still one of the six colors). -/
theorem getLiturgicalColor_total
    (overrideModel : Option (Nat → Except Unit (Option OverrideDoc)))
    (saintCalendarFn : Option (Nat → Except Unit (List SaintEntry)))
    (date : Nat) (override : Option OverrideDoc) :
    getLiturgicalColor overrideModel saintCalendarFn date override ∈
      [LiturgicalColor.white, .red, .green, .purple, .rose, .gold] := by
  cases getLiturgicalColor overrideModel saintCalendarFn date override <;> simp

/-- C1: if the persisted override store holds an override for the queried
date — the lookup being keyed by the date with its time-of-day zeroed to
midnight (`setMidnight`) — whose color is one of the six recognized names,
then `getLiturgicalColor` returns that override's color, regardless of the
season or feast the date falls in. -/
theorem getLiturgicalColor_override_precedence
    (findOne : Nat → Except Unit (Option OverrideDoc))
    (saintCalendarFn : Option (Nat → Except Unit (List SaintEntry)))
    (date : Nat) (doc : OverrideDoc) (c : LiturgicalColor)
    (hfind : findOne (setMidnight date) = .ok (some doc))
    (hcolor : LITURGICAL_COLORS (jsToUpperCase doc.color) = some c) :
    getLiturgicalColor (some findOne) saintCalendarFn date none = c := by
  unfold getLiturgicalColor
  simp [hfind, hcolor]

/-- Witness for C1: querying at 01:00 on the Ordinary-Time Tuesday
2024-06-18 with a `gold` override persisted for that calendar date returns
`gold` (the hour is stripped by the midnight-keyed lookup). -/
theorem getLiturgicalColor_override_precedence_witness :
    getLiturgicalColor (some c1Store) none (mkDate 2024 5 18 + 3600000) none =
      .gold :=
  getLiturgicalColor_override_precedence c1Store none
    (mkDate 2024 5 18 + 3600000) ⟨"gold"⟩ .gold rfl (by decide)

/-- The saint-feast block yields nothing when its accessor is absent. -/
theorem saintFeastOverride_none (date : Nat) :
    saintFeastOverride none date = none := rfl

/-- The saint-feast block swallows a throwing accessor. -/
theorem saintFeastOverride_error (f : Nat → Except Unit (List SaintEntry))
    (date : Nat) (hf : f date = .error ()) :
    saintFeastOverride (some f) date = none := by
  unfold saintFeastOverride
  simp [hf]

/-- C4: collaborator failures are swallowed.  If the persisted override
lookup throws/rejects at the (midnight-zeroed) queried key, the classifier
behaves exactly as if no override store were wired in — the error is caught
and resolution falls through to the calculated color; likewise, if the
saint-calendar accessor throws at the queried date, the classifier behaves
exactly as if that accessor were absent, skipping the saint check.  In
neither case is the error propagated (the result is still a color). -/
theorem getLiturgicalColor_collaborator_failure :
    (∀ (findOne : Nat → Except Unit (Option OverrideDoc))
       (saintCalendarFn : Option (Nat → Except Unit (List SaintEntry)))
       (date : Nat) (override : Option OverrideDoc),
       findOne (setMidnight date) = .error () →
       getLiturgicalColor (some findOne) saintCalendarFn date override =
         getLiturgicalColor none saintCalendarFn date override) ∧
    (∀ (overrideModel : Option (Nat → Except Unit (Option OverrideDoc)))
       (f : Nat → Except Unit (List SaintEntry)) (date : Nat)
       (override : Option OverrideDoc),
       f date = .error () →
       getLiturgicalColor overrideModel (some f) date override =
         getLiturgicalColor overrideModel none date override) := by
  constructor
  · intro findOne saintCalendarFn date override hfind
    unfold getLiturgicalColor
    simp [hfind]
  · intro overrideModel f date override hf
    unfold getLiturgicalColor
    rw [saintFeastOverride_error f date hf, saintFeastOverride_none]

/-- Witness for C4: on 2024-06-18, a rejecting override store and a throwing
saint accessor are each treated as absent. -/
theorem getLiturgicalColor_collaborator_failure_witness :
    getLiturgicalColor (some c4Store) none (mkDate 2024 5 18) none =
      getLiturgicalColor none none (mkDate 2024 5 18) none ∧
    getLiturgicalColor none (some c4SaintFn) (mkDate 2024 5 18) none =
      getLiturgicalColor none none (mkDate 2024 5 18) none :=
  ⟨getLiturgicalColor_collaborator_failure.1 c4Store none (mkDate 2024 5 18)
      none rfl,
   getLiturgicalColor_collaborator_failure.2 none c4SaintFn (mkDate 2024 5 18)
      none rfl⟩

/-- The saint lookup is never empty: a date missing from the static table
falls back to the single-entry liturgical-day list. -/
theorem getSaintsForDate_ne_nil (date : Nat) : getSaintsForDate date ≠ [] := by
  by_cases h : SAINT_CALENDAR (getMonth date + 1) (getDate date) = []
  · simp [getSaintsForDate, h]
  · simp [getSaintsForDate, h]

/-- Closed form of the `getUpcomingFeasts` loop: starting at offset `i` with
`n` iterations left, it yields one entry per day, in offset order. -/
theorem upcomingFrom_eq (today : Nat) : ∀ n i : Nat,
    upcomingFrom today i n = (List.range' i n).map (fun j =>
      ⟨today + j * msPerDay, getSaintsForDate (today + j * msPerDay)⟩) := by
  intro n
  induction n with
  | zero => intro i; simp [upcomingFrom]
  | succ n ih =>
    intro i
    rw [List.range'_succ]
    simp only [upcomingFrom]
    rw [if_pos (List.length_pos.mpr (getSaintsForDate_ne_nil _))]
    rw [ih (i + 1)]
    simp

/-- C10: for `n ≥ 1`, `getUpcomingFeasts` (with the current timestamp made
explicit) returns exactly `n` entries, one per consecutive following day in
ascending order (`j`-th entry is `today + (j+1)` days); the emptiness guard
inside the loop never fires because `getSaintsForDate` is non-empty for
every date. -/
theorem getUpcomingFeasts_complete (today n : Nat) (hn : 1 ≤ n) :
    (getUpcomingFeasts today n).length = n ∧
    getUpcomingFeasts today n = (List.range' 1 n).map (fun j =>
      ⟨today + j * msPerDay, getSaintsForDate (today + j * msPerDay)⟩) ∧
    ∀ date : Nat, getSaintsForDate date ≠ [] := by
  have hmap := upcomingFrom_eq today n 1
  refine ⟨?_, ?_, fun date => getSaintsForDate_ne_nil date⟩
  · rw [getUpcomingFeasts, hmap]; simp
  · rw [getUpcomingFeasts, hmap]

/-- Witness for C10 at `today` = 2024-01-01, `n` = 3. -/
theorem getUpcomingFeasts_complete_witness :
    (getUpcomingFeasts (mkDate 2024 0 1) 3).length = 3 ∧
    getUpcomingFeasts (mkDate 2024 0 1) 3 = (List.range' 1 3).map (fun j =>
      ⟨mkDate 2024 0 1 + j * msPerDay,
        getSaintsForDate (mkDate 2024 0 1 + j * msPerDay)⟩) ∧
    ∀ date : Nat, getSaintsForDate date ≠ [] :=
  getUpcomingFeasts_complete (mkDate 2024 0 1) 3 (by decide)

/-- C9: the `GET /api/saints/range` handler reports a 400 error and computes
no feast list when either date string is unparseable or when the parsed
start is after the parsed end; on valid input it responds with the feasts of
the range together with their count. -/
theorem saintsRangeHandler_spec (parseDate : String → Option Nat)
    (startStr endStr : String) (hs : startStr ≠ "") (he : endStr ≠ "") :
    ((parseDate startStr = none ∨ parseDate endStr = none) →
       saintsRangeHandler parseDate (some startStr) (some endStr) =
         .badRequest "Invalid date format. Use YYYY-MM-DD") ∧
    (∀ s e : Nat, parseDate startStr = some s → parseDate endStr = some e →
       e < s →
       saintsRangeHandler parseDate (some startStr) (some endStr) =
         .badRequest "Start date must be before end date") ∧
    (∀ s e : Nat, parseDate startStr = some s → parseDate endStr = some e →
       s ≤ e →
       saintsRangeHandler parseDate (some startStr) (some endStr) =
         .ok (getFeastsInRange s e) (getFeastsInRange s e).length) := by
  have hs' : (startStr == "") = false := by simp [hs]
  have he' : (endStr == "") = false := by simp [he]
  refine ⟨?_, ?_, ?_⟩
  · intro hp
    unfold saintsRangeHandler
    cases hps : parseDate startStr <;> cases hpe : parseDate endStr <;>
      simp_all [hs', he']
  · intro s e hps hpe hlt
    unfold saintsRangeHandler
    simp [hs', he', hps, hpe, hlt]
  · intro s e hps hpe hle
    unfold saintsRangeHandler
    simp [hs', he', hps, hpe, Nat.not_lt.mpr hle]

/-- Witness for C9: a valid two-day range yields the ok response with the
feast list and its count. -/
theorem saintsRangeHandler_spec_witness :
    saintsRangeHandler c9Parse (some "2024-06-01") (some "2024-06-03") =
      .ok (getFeastsInRange (mkDate 2024 5 1) (mkDate 2024 5 3))
        (getFeastsInRange (mkDate 2024 5 1) (mkDate 2024 5 3)).length :=
  (saintsRangeHandler_spec c9Parse "2024-06-01" "2024-06-03" (by decide)
      (by decide)).2.2 (mkDate 2024 5 1) (mkDate 2024 5 3) rfl rfl (by decide)

/-- Counterexample to C8 as stated: 2024-03-31 (Easter Sunday) has no entry
in the static table, and the fallback single entry produced by the Day Namer
has type `feast`, not `none`. -/
theorem getSaintsForDate_fallback_cex :
    SAINT_CALENDAR (getMonth (mkDate 2024 2 31) + 1)
        (getDate (mkDate 2024 2 31)) = [] ∧
    getSaintsForDate (mkDate 2024 2 31) =
      [⟨"Easter Sunday", "feast",
        "The Resurrection of the Lord - The Paschal Feast"⟩] ∧
    (⟨"Easter Sunday", "feast",
      "The Resurrection of the Lord - The Paschal Feast"⟩ : SaintEntry).type ≠
      "none" :=
  ⟨by decide, by decide, by decide⟩

/-- C8 (amended): for every date whose `(month, day)` key is absent from the
static saint table, `getSaintsForDate` returns the Day Namer's result
wrapped as a single-entry list — whose type is whatever the Day Namer
assigns (`none` on ordinary weekdays, but e.g. `feast` on special days). -/
theorem getSaintsForDate_fallback (date : Nat)
    (h : SAINT_CALENDAR (getMonth date + 1) (getDate date) = []) :
    getSaintsForDate date = [getLiturgicalDay date] := by
  unfold getSaintsForDate
  simp [h]

/-- Witness for C8 (amended) at 2024-03-30, a date absent from the table. -/
theorem getSaintsForDate_fallback_witness :
    getSaintsForDate (mkDate 2024 2 30) = [getLiturgicalDay (mkDate 2024 2 30)] :=
  getSaintsForDate_fallback (mkDate 2024 2 30) (by decide)

/-- December 25 of any year is at least day 299 of the embedding. -/
theorem daysFromCivil_dec25_ge (year : Nat) : 299 ≤ daysFromCivil year 12 25 := by
  unfold daysFromCivil
  norm_num
  omega

/-- Counterexample to C7 as stated: December 25, 2022 is itself a Sunday, so
the Sunday on or before December 25 is December 25 — but `getAdventSunday`
returns December 18 for the 4th Advent Sunday of 2022. -/
theorem getAdventSunday_onOrBefore_cex :
    getDay (mkDate 2022 11 25) = 0 ∧
    getAdventSunday 2022 4 = mkDate 2022 11 18 ∧
    getAdventSunday 2022 4 ≠ mkDate 2022 11 25 :=
  ⟨by decide, by decide, by decide⟩

/-- C7 (amended): for every year, `getAdventSunday(year, 4)` is the Sunday
*strictly before* December 25 (a Sunday, earlier than December 25, and at
most 7 days earlier — when December 25 is itself a Sunday this is December
18, not December 25), and every `getAdventSunday(year, N)` is that Sunday
minus `(4 − N) · 7` days. -/
theorem getAdventSunday_spec (year : Nat) :
    getDay (getAdventSunday year 4) = 0 ∧
    getAdventSunday year 4 < mkDate year 11 25 ∧
    mkDate year 11 25 - getAdventSunday year 4 ≤ 7 * msPerDay ∧
    ∀ n : Nat, getAdventSunday year n =
      getAdventSunday year 4 - (4 - n) * 7 * msPerDay := by
  have hc : 299 ≤ daysFromCivil year 12 25 := daysFromCivil_dec25_ge year
  unfold getAdventSunday getDay mkDate
  simp only [msPerDay, show (11 : Nat) + 1 = 12 from rfl]
  split <;>
  · next hdow =>
    simp only [beq_iff_eq] at hdow
    refine ⟨by omega, by omega, by omega, fun n => by omega⟩

/-- C5: for every year — with no persisted override wired in —
`getLiturgicalColor` returns red on Palm Sunday (Easter − 7 days) and on
Good Friday (Easter − 2 days), and rose on the 3rd Sunday of Advent
(Gaudete Sunday). -/
theorem specialDays_colors (year : Nat) :
    getLiturgicalColor none none (calculateEaster year - 7 * msPerDay) none =
      .red ∧
    getLiturgicalColor none none (calculateEaster year - 2 * msPerDay) none =
      .red ∧
    getLiturgicalColor none none (getAdventSunday year 3) none = .rose := by
  obtain ⟨tE, hE, ht1, ht2⟩ := easterForm year
  obtain ⟨hstrip7, hyear7⟩ := stripTime_yearBase year (tE - 7) (by omega)
  obtain ⟨hstrip2, hyear2⟩ := stripTime_yearBase year (tE - 2) (by omega)
  obtain ⟨hstrip49, hyear49⟩ := stripTime_yearBase year (tE + 49) (by omega)
  have hP7 : calculateEaster year - 7 * msPerDay =
      (yearBase year + (tE - 7)) * msPerDay := by
    rw [hE]; simp only [msPerDay]; omega
  have hP2 : calculateEaster year - 2 * msPerDay =
      (yearBase year + (tE - 2)) * msPerDay := by
    rw [hE]; simp only [msPerDay]; omega
  have hP49 : calculateEaster year + 49 * msPerDay =
      (yearBase year + (tE + 49)) * msPerDay := by
    rw [hE]; simp only [msPerDay]; omega
  refine ⟨?_, ?_, ?_⟩
  · -- Palm Sunday
    rw [hP7]
    apply calc_red
    rw [hyear7]
    have hpalm : isPalmSunday ((yearBase year + (tE - 7)) * msPerDay)
        (calculateEaster year) = true := by
      simp only [isPalmSunday]
      rw [hP7, hstrip7]
      simp
    simp [hpalm]
  · -- Good Friday
    rw [hP2]
    apply calc_red
    rw [hyear2]
    have hgf : isGoodFriday ((yearBase year + (tE - 2)) * msPerDay)
        (calculateEaster year) = true := by
      simp only [isGoodFriday]
      rw [hP2, hstrip2]
      simp
    simp [hgf]
  · -- Gaudete Sunday
    obtain ⟨u, hT, hu1, hu2, hT1⟩ := adventSunday_form year
    obtain ⟨hstripT, hyearT⟩ := stripTime_yearBase year u (by omega)
    have hfalse : (isPalmSunday ((yearBase year + u) * msPerDay)
          (calculateEaster year) ||
        isGoodFriday ((yearBase year + u) * msPerDay) (calculateEaster year) ||
        isPentecost ((yearBase year + u) * msPerDay) (calculateEaster year)) =
        false := by
      simp only [isPalmSunday, isGoodFriday, isPentecost]
      rw [hP7, hstrip7, hP2, hstrip2, hP49, hstrip49]
      simp only [Bool.or_eq_false_iff, beq_eq_false_iff_ne, ne_eq]
      refine ⟨⟨?_, ?_⟩, ?_⟩ <;> simp only [msPerDay] <;> omega
    have hadv : isAdvent ((yearBase year + u) * msPerDay) = true := by
      simp only [isAdvent]
      rw [hyearT, hT1, christmas_form year]
      simp only [Bool.and_eq_true, decide_eq_true_eq, msPerDay]
      refine ⟨by omega, by omega⟩
    have hgaud : isGaudeteSunday ((yearBase year + u) * msPerDay) = true := by
      simp only [isGaudeteSunday]
      rw [hyearT, hadv]
      simp only [Bool.not_true, Bool.false_eq_true, if_false]
      rw [hT, hstripT]
      simp
    rw [hT]
    apply calc_rose
    · rw [hyearT]
      exact hfalse
    · exact hgaud

/-- C6: for every year — with no collaborators wired in — Easter Sunday
itself is classified white (the Easter season includes its left endpoint),
and the day immediately after Pentecost (Easter + 50 days), when it is not a
Sunday and no fixed-date feast falls on it, is classified green (Ordinary
Time). -/
theorem seasonBoundaries (year : Nat) :
    getLiturgicalColor none none (calculateEaster year) none = .white ∧
    (getDay (calculateEaster year + 50 * msPerDay) ≠ 0 →
     fixedFeastDay (getMonth (calculateEaster year + 50 * msPerDay))
       (getDate (calculateEaster year + 50 * msPerDay)) = false →
     getLiturgicalColor none none (calculateEaster year + 50 * msPerDay) none =
       .green) := by
  obtain ⟨tE, hE, ht1, ht2⟩ := easterForm year
  obtain ⟨hstripE, hyearE⟩ := stripTime_yearBase year tE (by omega)
  obtain ⟨hstrip7, hyear7⟩ := stripTime_yearBase year (tE - 7) (by omega)
  obtain ⟨hstrip2, hyear2⟩ := stripTime_yearBase year (tE - 2) (by omega)
  obtain ⟨hstrip49, hyear49⟩ := stripTime_yearBase year (tE + 49) (by omega)
  obtain ⟨hstrip50, hyear50⟩ := stripTime_yearBase year (tE + 50) (by omega)
  obtain ⟨u, hT, hu1, hu2, hT1⟩ := adventSunday_form year
  have hP7 : calculateEaster year - 7 * msPerDay =
      (yearBase year + (tE - 7)) * msPerDay := by
    rw [hE]; simp only [msPerDay]; omega
  have hP2 : calculateEaster year - 2 * msPerDay =
      (yearBase year + (tE - 2)) * msPerDay := by
    rw [hE]; simp only [msPerDay]; omega
  have hP49 : calculateEaster year + 49 * msPerDay =
      (yearBase year + (tE + 49)) * msPerDay := by
    rw [hE]; simp only [msPerDay]; omega
  have hP50 : calculateEaster year + 50 * msPerDay =
      (yearBase year + (tE + 50)) * msPerDay := by
    rw [hE]; simp only [msPerDay]; omega
  have hadvF : ∀ t : Nat, t ≤ 105 →
      isAdvent ((yearBase year + t) * msPerDay) = false := by
    intro t htb
    simp only [isAdvent]
    rw [(stripTime_yearBase year t (by omega)).2, hT1, christmas_form year]
    simp only [Bool.and_eq_false_iff]
    left
    simp only [decide_eq_false_iff_not, msPerDay]
    omega
  have hgaudF : ∀ t : Nat, t ≤ 105 →
      isGaudeteSunday ((yearBase year + t) * msPerDay) = false := by
    intro t htb
    simp only [isGaudeteSunday]
    rw [hadvF t htb]
    simp
  have hlentF : ∀ t : Nat, tE - 3 ≤ t →
      isLent ((yearBase year + t) * msPerDay) (calculateEaster year) = false := by
    intro t htb
    simp only [isLent]
    rw [hE]
    simp only [Bool.and_eq_false_iff]
    right
    simp only [decide_eq_false_iff_not, msPerDay]
    omega
  have hlaetF : ∀ t : Nat, tE - 3 ≤ t →
      isLaetareSunday ((yearBase year + t) * msPerDay) (calculateEaster year) =
        false := by
    intro t htb
    simp only [isLaetareSunday]
    rw [hlentF t htb]
    simp
  constructor
  · -- Easter Sunday is white
    rw [hE]
    apply calc_white_easterSeason
    · rw [hyearE]
      simp only [isPalmSunday, isGoodFriday, isPentecost]
      rw [hP7, hstrip7, hP2, hstrip2, hP49, hstrip49]
      simp only [Bool.or_eq_false_iff, beq_eq_false_iff_ne, ne_eq]
      refine ⟨⟨?_, ?_⟩, ?_⟩ <;> simp only [msPerDay] <;> omega
    · exact hgaudF tE (by omega)
    · rw [hyearE]
      exact hlaetF tE (by omega)
    · rw [hyearE]
      simp only [isEasterSeason]
      rw [hE]
      simp only [Bool.and_eq_true, decide_eq_true_eq, msPerDay]
      refine ⟨by omega, by omega⟩
  · -- the day after Pentecost is green
    intro hSun hff
    rw [hP50] at hff ⊢
    obtain ⟨m, d, h3, h12, hd1, hd31, hMon, hDat, hdoy⟩ :=
      fields_yearBase year (tE + 50) (by omega)
    apply calc_green
    · rw [hyear50]
      simp only [isPalmSunday, isGoodFriday, isPentecost]
      rw [hP7, hstrip7, hP2, hstrip2, hP49, hstrip49]
      simp only [Bool.or_eq_false_iff, beq_eq_false_iff_ne, ne_eq]
      refine ⟨⟨?_, ?_⟩, ?_⟩ <;> simp only [msPerDay] <;> omega
    · exact hgaudF (tE + 50) (by omega)
    · rw [hyear50]
      exact hlaetF (tE + 50) (by omega)
    · exact hff
    · rw [hyear50]
      simp only [isEasterSeason]
      rw [hE]
      simp only [Bool.and_eq_false_iff]
      right
      simp only [decide_eq_false_iff_not, msPerDay]
      omega
    · -- not in the Christmas season: the month is May or June
      have hm56 : 5 ≤ m ∧ m ≤ 6 := by
        constructor <;> omega
      simp only [isChristmasSeason]
      rw [hMon]
      have c1 : (m - 1 == 11) = false := by
        simp only [beq_eq_false_iff_ne, ne_eq]; omega
      have c2 : (m - 1 == 0) = false := by
        simp only [beq_eq_false_iff_ne, ne_eq]; omega
      rw [c1, c2]
      simp
    · rw [hyear50]
      exact hlentF (tE + 50) (by omega)
    · exact hadvF (tE + 50) (by omega)

/-- Witness for C6 at 2024: Easter 2024 is white, and May 20, 2024 (the
Monday after Pentecost, no fixed feast) is green. -/
theorem seasonBoundaries_witness :
    getLiturgicalColor none none (calculateEaster 2024) none = .white ∧
    getLiturgicalColor none none (calculateEaster 2024 + 50 * msPerDay) none =
      .green :=
  ⟨(seasonBoundaries 2024).1,
   (seasonBoundaries 2024).2 (by decide) (by decide)⟩

set_option maxRecDepth 4096 in
/-- Exhaustive check of the Computus contract over the claim's year range,
offset so the bounded quantifier is kernel-decidable. -/
theorem calculateEaster_aux : ∀ i < 201,
    getDay (calculateEaster (1900 + i)) = 0 ∧
    mkDate (1900 + i) 2 22 ≤ calculateEaster (1900 + i) ∧
    calculateEaster (1900 + i) ≤ mkDate (1900 + i) 3 25 := by decide

/-- C3: for every year in [1900, 2100], `calculateEaster` returns a date that
falls on a Sunday (`getDay` = 0) and lies between March 22 and April 25
inclusive.  (The function body uses integer arithmetic only; the embedding
is over `Nat`, every JavaScript intermediate being a non-negative integer.) -/
theorem calculateEaster_range (year : Nat) (h1 : 1900 ≤ year)
    (h2 : year ≤ 2100) :
    getDay (calculateEaster year) = 0 ∧
    mkDate year 2 22 ≤ calculateEaster year ∧
    calculateEaster year ≤ mkDate year 3 25 := by
  have h := calculateEaster_aux (year - 1900) (by omega)
  have hy : 1900 + (year - 1900) = year := by omega
  rw [hy] at h
  exact h

/-- Witness for C3 at 2024 (Easter 2024 = March 31, a Sunday). -/
theorem calculateEaster_range_witness :
    getDay (calculateEaster 2024) = 0 ∧
    mkDate 2024 2 22 ≤ calculateEaster 2024 ∧
    calculateEaster 2024 ≤ mkDate 2024 3 25 :=
  calculateEaster_range 2024 (by decide) (by decide)

end Parish

-- Concrete regression examples checking the embedding against known values.
-- Easter 2024 = March 31, 2024; 1970-01-01 is day 719468 and a Thursday.
example : Parish.daysFromCivil 1970 1 1 = 719468 := by decide
example : Parish.getDay (Parish.mkDate 1970 0 1) = 4 := by decide
example : Parish.calculateEaster 2024 = Parish.mkDate 2024 2 31 := by decide
example : Parish.civilFromDays (Parish.daysFromCivil 2024 3 31) = (2024, 3, 31) := by decide
example : Parish.getDay (Parish.calculateEaster 2024) = 0 := by decide
example : Parish.getAdventSunday 2024 1 = Parish.mkDate 2024 11 1 := by decide
example : Parish.isGaudeteSunday (Parish.mkDate 2024 11 15) = true := by decide
-- 2024-12-25 is white (Christmas); 2024-03-19 is white (St Joseph in Lent);
-- an Ordinary-Time Tuesday (2024-06-18) is green; Good Friday 2024 is red.
example : Parish.getLiturgicalColor none none (Parish.mkDate 2024 11 25) none = .white := by decide
example : Parish.getLiturgicalColor none none (Parish.mkDate 2024 2 19) none = .white := by decide
example : Parish.getLiturgicalColor none none (Parish.mkDate 2024 5 18) none = .green := by decide
example : Parish.getLiturgicalColor none none (Parish.mkDate 2024 2 29) none = .red := by decide
example : Parish.getLiturgicalColor none none (Parish.mkDate 2024 4 19) none = .red := by decide
example : Parish.getLiturgicalColor none none (Parish.mkDate 2024 2 10) none = .rose := by decide
example : Parish.strIncludes "Saints Peter and Paul" "Peter and Paul" = true := by decide
example : Parish.getSaintsForDate (Parish.mkDate 2024 5 29) =
    [⟨"Saints Peter and Paul", "feast", "Apostles"⟩] := by decide
example : Parish.getSaintsForDate (Parish.mkDate 2024 2 31) =
    [⟨"Easter Sunday", "feast", "The Resurrection of the Lord - The Paschal Feast"⟩] := by decide
example : (Parish.getSaintsForDate (Parish.mkDate 2024 5 18)).map Parish.SaintEntry.type =
    ["none"] := by decide
example : (Parish.getLiturgicalDay (Parish.mkDate 2024 5 18)).name =
    "Tuesday of the 5th week of Ordinary Time" := by decide
